import Mathlib

/-!
Verification development for a legal-case summary benchmarking engine.

This file gives a shallow embedding, in Lean, of the scoring and
statistical-validation core of the benchmark:

* the composite scorer (src/composite_scorer.py): compute_composite_score,
  compute_all_composite_scores, bootstrap_composite_ci,
  pairwise_significance_test;
* the NLI contradiction detector (src/evaluators/nli_evaluator.py);
* the embedding coverage analyzer (src/evaluators/coverage_evaluator.py);
* the LLM-judge response parser (src/evaluators/judge_evaluator.py);
* the quadratic-weighted Cohen kappa (src/evaluators/meta_evaluator.py);
* the legal error-taxonomy classifier (src/evaluators/error_taxonomy.py).

Numbers are embedded as exact rationals; Python floats are modelled by
exact rational arithmetic.  External collaborators (the NLI classifier,
the sentence-embedding model, the remote judge model, the NLTK sentence
tokenizer, the numpy random generator and the regex engine) are modelled
as explicit function parameters, so every theorem quantifies over their
behaviour unless the source pins it down.  Python str helpers (strip,
len, split) are modelled by executable functions on the character list.
-/

/- ### Python string primitives, modelled on the character list -/

/-- Whitespace test used by the model of Python str.strip (ASCII whitespace). -/
def pyIsSpace (c : Char) : Bool :=
  c = ' ' || c = '\t' || c = '\n' || c = '\r' || c = '\x0b' || c = '\x0c'

/-- Model of Python str.strip(): drop leading and trailing whitespace. -/
def pyStrip (s : String) : String :=
  String.mk (((s.data.dropWhile pyIsSpace).reverse.dropWhile pyIsSpace).reverse)

/-- Model of Python len() on strings: the number of characters. -/
def pyLen (s : String) : ℕ :=
  s.data.length

/-- Split a character list at every occurrence of the separator. -/
def splitChars (sep : Char) : List Char → List (List Char)
  | [] => [[]]
  | c :: cs =>
    let r := splitChars sep cs
    if c = sep then [] :: r
    else
      match r with
      | h :: t => (c :: h) :: t
      | [] => [[c]]

/-- Model of Python str.split(sep) for a one-character separator. -/
def pySplit (sep : Char) (s : String) : List String :=
  (splitChars sep s.data).map String.mk

/-- Model of Python string comparison: lexicographic on code points. -/
def strLeB : List Char → List Char → Bool
  | [], _ => true
  | _ :: _, [] => false
  | a :: as, b :: bs =>
    if a.toNat < b.toNat then true
    else if b.toNat < a.toNat then false
    else strLeB as bs

/-- Model of Python sorted() on strings (any correct sort of a linear order). -/
def pySortStrings (l : List String) : List String :=
  List.insertionSort (fun a b => strLeB a.data b.data = true) l

/- ### Numeric primitives: mean, Python round, numpy percentile, numpy std -/

/-- Arithmetic mean of a list of rationals (division by zero gives the junk
value 0; numpy would produce nan on an empty list, a case no claim relies on). -/
def listMean (l : List ℚ) : ℚ :=
  l.sum / (l.length : ℚ)

/-- Round-half-even to an integer, the rounding used by Python round(). -/
def roundHalfEvenInt (x : ℚ) : ℤ :=
  if x - (⌊x⌋ : ℚ) < 1/2 then ⌊x⌋
  else if 1/2 < x - (⌊x⌋ : ℚ) then ⌊x⌋ + 1
  else if ⌊x⌋ % 2 = 0 then ⌊x⌋ else ⌊x⌋ + 1

/-- Model of Python round(x, 4) over exact rationals. -/
def pyRound4 (x : ℚ) : ℚ :=
  ((roundHalfEvenInt (x * 10000) : ℤ) : ℚ) / 10000

/-- Floor of the square root of a nonnegative rational. -/
def ratSqrtFloor (x : ℚ) : ℤ :=
  ((Nat.sqrt (x.num.toNat * x.den) / x.den : ℕ) : ℤ)

/-- Round-half-even of the square root of a nonnegative rational, computed
exactly by integer comparisons. -/
def roundHalfEvenSqrt (w : ℚ) : ℤ :=
  let s := ratSqrtFloor w
  if 4 * w < ((4 * s ^ 2 + 4 * s + 1 : ℤ) : ℚ) then s
  else if ((4 * s ^ 2 + 4 * s + 1 : ℤ) : ℚ) < 4 * w then s + 1
  else if s % 2 = 0 then s else s + 1

/-- Model of Python round(sqrt(v), 4) over exact rationals: the square root
of v scaled by 10^4 is the square root of v * 10^8. -/
def pyRound4Sqrt (v : ℚ) : ℚ :=
  ((roundHalfEvenSqrt (v * 100000000) : ℤ) : ℚ) / 10000

/-- Linear interpolation of a sorted sample at fractional position h, the
kernel of numpy percentile: interpolate between the order statistics at
positions floor(h) and floor(h) + 1 (clamped to the last index). -/
def npInterp (s : List ℚ) (h : ℚ) : ℚ :=
  s.getD ⌊h⌋.toNat 0 +
    (h - (⌊h⌋.toNat : ℚ)) *
      (s.getD (min (⌊h⌋.toNat + 1) (s.length - 1)) 0 - s.getD ⌊h⌋.toNat 0)

/-- Model of numpy percentile with the default linear interpolation:
sort ascending and interpolate at position q/100 * (n-1). -/
def npPercentile (q : ℚ) (l : List ℚ) : ℚ :=
  if l.length = 0 then 0
  else npInterp (List.insertionSort (· ≤ ·) l) (q / 100 * ((l.length : ℚ) - 1))

/-- Model of numpy population standard deviation composed with round(_, 4):
round-half-even of the square root of the mean squared deviation. -/
def npStdRound4 (l : List ℚ) : ℚ :=
  pyRound4Sqrt (listMean (l.map (fun x => (x - listMean l) ^ 2)))

/- ### Model of the seeded numpy generator -/

/-- One step of a 64-bit linear congruential generator, standing in for the
externally supplied PCG64 stream of numpy default_rng(42).  All theorems that
depend on the draws are proved for every index stream whose draws are valid,
so nothing below relies on this particular formula. -/
def lcgNext (s : ℕ) : ℕ :=
  (6364136223846793005 * s + 1442695040888963407) % 18446744073709551616

/-- State of the modelled generator after k steps from the fixed seed 42. -/
def lcgState (k : ℕ) : ℕ :=
  lcgNext^[k] 42

/-- Model of rng.choice(n, size=n, replace=True) on iteration b of a loop:
a deterministic list of n indices, each reduced mod n. -/
def npRandChoice (b n : ℕ) : List ℕ :=
  (List.range n).map (fun t => lcgState (b * n + t + 1) % n)

/-- Index a score array at each position of an index vector, as numpy fancy
indexing arr[idx] does (out-of-range indices, which a valid stream never
produces, give the junk value 0). -/
def select (idx : List ℕ) (arr : List ℚ) : List ℚ :=
  idx.map (fun i => arr.getD i 0)

/- ### Association-list dictionaries -/

/-- Lookup with a default, modelling Python dict.get(key, default). -/
def lookupD {β : Type} (l : List (String × β)) (k : String) (d : β) : β :=
  (l.lookup k).getD d

/- ### Composite scorer (src/composite_scorer.py) -/

/-- Pillar result record as read by the composite scorer: only the three
score keys are consulted, each possibly absent, modelling a partial or
empty result dict. -/
structure PillarDict where
  nli_score : Option ℚ
  judge_score : Option ℚ
  coverage_score : Option ℚ
deriving DecidableEq

/-- Empty result dict, the default used for a missing (case, model) key. -/
def PillarDict.empty : PillarDict :=
  ⟨none, none, none⟩

/-- Return value of compute_composite_score. -/
structure CompositeScore where
  nli_score : ℚ
  judge_score : ℚ
  coverage_score : ℚ
  weight_nli : ℚ
  weight_judge : ℚ
  weight_coverage : ℚ
  composite_score : ℚ
deriving DecidableEq

/-- Embedding of compute_composite_score (src/composite_scorer.py:126-178):
each pillar score is read with .get(key, 0), so a missing or empty pillar
result contributes score 0, and the composite is the weighted sum. -/
def compute_composite_score (nli_result judge_result coverage_result : PillarDict)
    (weight_nli weight_judge weight_coverage : ℚ) : CompositeScore :=
  let nli_score := nli_result.nli_score.getD 0
  let judge_score := judge_result.judge_score.getD 0
  let coverage_score := coverage_result.coverage_score.getD 0
  ⟨nli_score, judge_score, coverage_score, weight_nli, weight_judge, weight_coverage,
    weight_nli * nli_score + weight_judge * judge_score + weight_coverage * coverage_score⟩

/-- Return value of bootstrap_composite_ci. -/
structure CIResult where
  mean : ℚ
  ci_lower : Option ℚ
  ci_upper : Option ℚ
  std_error : Option ℚ
deriving DecidableEq

/-- Bootstrap resample means: for each of the 1000 iterations, the mean of
the scores selected by that iteration's index draw
(src/composite_scorer.py:45-47). -/
def bootMeans (idxs : ℕ → ℕ → List ℕ) (scores : List ℚ) : List ℚ :=
  (List.range 1000).map (fun b => listMean (select (idxs b scores.length) scores))

/-- Embedding of bootstrap_composite_ci (src/composite_scorer.py:15-58),
parametrised by the index stream of the seeded generator.  With fewer than
2 scores the CI fields are None; otherwise the bounds are the
[2.5, 97.5] percentiles of the 1000 bootstrap means, rounded to 4 decimal
places, and the std error is the rounded standard deviation of those means. -/
def bootstrap_composite_ci_with (idxs : ℕ → ℕ → List ℕ) (scores : List ℚ) : CIResult :=
  if scores.length < 2 then ⟨listMean scores, none, none, none⟩
  else
    ⟨listMean scores,
      some (pyRound4 (npPercentile (5/2) (bootMeans idxs scores))),
      some (pyRound4 (npPercentile (195/2) (bootMeans idxs scores))),
      some (npStdRound4 (bootMeans idxs scores))⟩

/-- Embedding of bootstrap_composite_ci with the fixed seed-42 stream. -/
def bootstrap_composite_ci (scores : List ℚ) : CIResult :=
  bootstrap_composite_ci_with npRandChoice scores

/-- Return value of one pairwise comparison in pairwise_significance_test. -/
structure SignificanceResult where
  pair_key : String
  model_a : String
  model_b : String
  mean_diff : ℚ
  ci_95_lower : ℚ
  ci_95_upper : ℚ
  significant : Bool
  winner : String
deriving DecidableEq

/-- Short model name: m.split("/")[-1].split(":")[0]. -/
def modelShortName (m : String) : String :=
  let last := (pySplit '/' m).getLastD m
  (pySplit ':' last).headD last

/-- Bootstrap differences of means: on each iteration one shared index draw
resamples both score vectors (src/composite_scorer.py:97-101). -/
def bootDiffs (idxs : ℕ → ℕ → List ℕ) (s1 s2 : List ℚ) (n : ℕ) : List ℚ :=
  (List.range 1000).map (fun b =>
    listMean (select (idxs b n) s1) - listMean (select (idxs b n) s2))

/-- Embedding of the loop body of pairwise_significance_test
(src/composite_scorer.py:81-121) for one model pair: truncate both score
lists to their common length n, skip the pair when n < 2, bootstrap the
difference in means with a shared index draw per iteration, and declare
significance when the unrounded 95 percent percentile interval excludes 0. -/
def sigTestPair (idxs : ℕ → ℕ → List ℕ) (m1 m2 : String) (l1 l2 : List ℚ) :
    Option SignificanceResult :=
  let n := min l1.length l2.length
  if n < 2 then none
  else
    let s1 := l1.take n
    let s2 := l2.take n
    let observed_diff := listMean s1 - listMean s2
    let bd := bootDiffs idxs s1 s2 n
    let ci_lower := npPercentile (5/2) bd
    let ci_upper := npPercentile (195/2) bd
    let is_significant := decide (0 < ci_lower) || decide (ci_upper < 0)
    let m1s := modelShortName m1
    let m2s := modelShortName m2
    some ⟨m1s ++ " vs " ++ m2s, m1, m2, pyRound4 observed_diff,
      pyRound4 ci_lower, pyRound4 ci_upper, is_significant,
      if 0 < observed_diff then m1s else m2s⟩

/-- Unordered pairs in iteration order, as itertools.combinations(l, 2). -/
def combos {α : Type} : List α → List (α × α)
  | [] => []
  | x :: xs => (xs.map (fun y => (x, y))) ++ combos xs

/-- Embedding of pairwise_significance_test (src/composite_scorer.py:61-123),
parametrised by the index stream: iterate the unordered pairs of the sorted
model names and test each pair with at least 2 aligned scores. -/
def pairwise_significance_test_with (idxs : ℕ → ℕ → List ℕ)
    (model_scores : List (String × List ℚ)) : List SignificanceResult :=
  let models := pySortStrings (model_scores.map Prod.fst)
  (combos models).filterMap (fun p =>
    sigTestPair idxs p.1 p.2 (lookupD model_scores p.1 []) (lookupD model_scores p.2 []))

/-- Embedding of pairwise_significance_test with the fixed seed-42 stream. -/
def pairwise_significance_test (model_scores : List (String × List ℚ)) :
    List SignificanceResult :=
  pairwise_significance_test_with npRandChoice model_scores

/-- Per-model averages block of compute_all_composite_scores. -/
structure ModelAverages where
  avg_nli_score : ℚ
  avg_judge_score : ℚ
  avg_coverage_score : ℚ
  avg_composite_score : ℚ
  num_cases : ℕ
  ci_95_lower : Option ℚ
  ci_95_upper : Option ℚ
  composite_std_error : Option ℚ
deriving DecidableEq

/-- Return value of compute_all_composite_scores. -/
structure AllCompositeScores where
  per_case : List (String × List (String × CompositeScore))
  per_model : List (String × ModelAverages)
  best_model : Option String
  best_avg_score : ℚ
  pairwise_significance : List SignificanceResult

/-- Append a score under a model key, inserting the key at the end on first
appearance, as Python dict insertion does for model_aggregates. -/
def upsertScore : List (String × List CompositeScore) → String → CompositeScore →
    List (String × List CompositeScore)
  | [], k, v => [(k, [v])]
  | (k0, vs) :: rest, k, v =>
    if k0 == k then (k0, vs ++ [v]) :: rest else (k0, vs) :: upsertScore rest k v

/-- First key attaining the maximal value, as Python max(keys, key=f), which
keeps the earlier element on ties. -/
def argmaxFirst (l : List (String × ℚ)) : Option String :=
  (l.foldl (fun acc p =>
    match acc with
    | none => some p
    | some q => if q.2 < p.2 then some p else some q) none).map Prod.fst

/-- Per-model averages from the aggregated composite scores
(src/composite_scorer.py:246-262). -/
def mkModelAverages (scores : List CompositeScore) : ModelAverages :=
  let n := scores.length
  let ci := bootstrap_composite_ci (scores.map (·.composite_score))
  ⟨if n = 0 then 0 else (scores.map (·.nli_score)).sum / (n : ℚ),
    if n = 0 then 0 else (scores.map (·.judge_score)).sum / (n : ℚ),
    if n = 0 then 0 else (scores.map (·.coverage_score)).sum / (n : ℚ),
    if n = 0 then 0 else (scores.map (·.composite_score)).sum / (n : ℚ),
    n, ci.ci_lower, ci.ci_upper, ci.std_error⟩

/-- Embedding of compute_all_composite_scores (src/composite_scorer.py:181-279).
The outer loop runs over the keys of the NLI results store and the inner loop
over that case's models in the NLI store; the judge and coverage stores are
consulted with .get(case, {}).get(model, {}) defaults. -/
def compute_all_composite_scores
    (nli_results judge_results coverage_results : List (String × List (String × PillarDict)))
    (weight_nli weight_judge weight_coverage : ℚ) : AllCompositeScores :=
  let per_case := nli_results.map (fun ce =>
    (ce.1, ce.2.map (fun me =>
      (me.1, compute_composite_score
        (lookupD (lookupD nli_results ce.1 []) me.1 PillarDict.empty)
        (lookupD (lookupD judge_results ce.1 []) me.1 PillarDict.empty)
        (lookupD (lookupD coverage_results ce.1 []) me.1 PillarDict.empty)
        weight_nli weight_judge weight_coverage))))
  let aggregates := per_case.foldl (fun acc ce =>
    ce.2.foldl (fun acc2 me => upsertScore acc2 me.1 me.2) acc) []
  let model_averages := aggregates.map (fun ma => (ma.1, mkModelAverages ma.2))
  let best_model := argmaxFirst (model_averages.map (fun p => (p.1, p.2.avg_composite_score)))
  let best_avg_score :=
    match best_model with
    | none => 0
    | some b => ((model_averages.lookup b).map (·.avg_composite_score)).getD 0
  let significance := pairwise_significance_test
    (aggregates.map (fun ma => (ma.1, ma.2.map (·.composite_score))))
  ⟨per_case, model_averages, best_model, best_avg_score, significance⟩

/- ### NLI contradiction detector (src/evaluators/nli_evaluator.py) -/

/-- Three-way NLI label of the external classifier. -/
inductive NLILabel where
  | contradiction : NLILabel
  | neutral : NLILabel
  | entailment : NLILabel
deriving DecidableEq

/-- Output of classify_pair for one (premise, hypothesis) pair: the argmax
label and the probability distribution of the external model. -/
structure NLIClassification where
  label : NLILabel
  probabilities : List (String × ℚ)
deriving DecidableEq

/-- One entry of the sentence_results list of the NLI evaluator. -/
structure NLISentenceResult where
  sentence : String
  label : String
  probabilities : Option (List (String × ℚ))
deriving DecidableEq

/-- Return value of NLIEvaluator.evaluate_summary. -/
structure NLIResult where
  sentence_results : List NLISentenceResult
  count_contradiction : ℕ
  total_sentences : ℕ
  contradiction_rate : ℚ
  nli_score : ℚ
deriving DecidableEq

/-- Embedding of NLIEvaluator.evaluate_summary
(src/evaluators/nli_evaluator.py:79-146) on the already-tokenized sentence
lists (nltk.sent_tokenize is the external tokenizer), parametrised by the
external classifier classify_pair (premise, hypothesis).  Each ground-truth
sentence is stripped and skipped when shorter than 10 characters; the
candidate sentences are used unfiltered as premises; the scan over candidate
sentences stops at the first contradiction, whose probabilities are kept. -/
def NLIEvaluator.evaluate_summary (classify_pair : String → String → NLIClassification)
    (gt_sentences summary_sentences : List String) : NLIResult :=
  let kept := (gt_sentences.map pyStrip).filter (fun s => !decide (pyLen s < 10))
  let results := kept.map (fun gt_sent =>
    match summary_sentences.find?
        (fun sum_sent => (classify_pair sum_sent gt_sent).label == NLILabel.contradiction) with
    | some c => ⟨gt_sent, "contradiction", some (classify_pair c gt_sent).probabilities⟩
    | none => ⟨gt_sent, "neutral/entailment", none⟩)
  let contradicted := results.countP (fun r => r.label == "contradiction")
  let total := results.length
  let rate := if 0 < total then (contradicted : ℚ) / (total : ℚ) else 0
  ⟨results, contradicted, total, rate, 1 - rate⟩

/- ### Coverage analyzer (src/evaluators/coverage_evaluator.py) -/

/-- One entry of the sentence_results list of the coverage evaluator. -/
structure CoverageSentenceResult where
  ground_truth_sentence : String
  best_match : Option String
  similarity : ℚ
  is_covered : Bool
deriving DecidableEq

/-- One entry of the omissions list of the coverage evaluator. -/
structure CoverageOmission where
  sentence : String
  best_similarity : ℚ
  best_match : Option String
deriving DecidableEq

/-- Return value of CoverageEvaluator.evaluate_summary; the fields absent
from the early empty-input payload are Options. -/
structure CoverageResult where
  sentence_results : List CoverageSentenceResult
  omissions : List CoverageOmission
  total_gt_sentences : Option ℕ
  covered_sentences : Option ℕ
  coverage_percentage : ℚ
  coverage_score : ℚ
  threshold : Option ℚ
deriving DecidableEq

/-- Sentence filter of the coverage evaluator
(src/evaluators/coverage_evaluator.py:74-75): strip each sentence and keep
it only when strictly longer than 10 characters. -/
def coverageFilter (sentences : List String) : List String :=
  (sentences.map pyStrip).filter (fun s => decide (10 < pyLen s))

/-- Embedding of CoverageEvaluator.evaluate_summary
(src/evaluators/coverage_evaluator.py:55-133) on the tokenized sentence
lists, parametrised by the external embedding similarity.  Both texts pass
the length-over-10 filter; when either filtered list is empty an explicit
empty payload with coverage score 0 is returned; otherwise each ground-truth
sentence records its best (strictly improving) candidate match and is
covered when the best similarity reaches the threshold. -/
def CoverageEvaluator.evaluate_summary (compute_similarity : String → String → ℚ)
    (threshold : ℚ) (gt_raw summary_raw : List String) : CoverageResult :=
  let gt_sentences := coverageFilter gt_raw
  let summary_sentences := coverageFilter summary_raw
  if gt_sentences.isEmpty || summary_sentences.isEmpty then
    ⟨[], [], none, none, 0, 0, none⟩
  else
    let per := gt_sentences.map (fun gt_sent =>
      let best := summary_sentences.foldl
        (fun (acc : ℚ × Option String) sum_sent =>
          if acc.1 < compute_similarity gt_sent sum_sent then
            (compute_similarity gt_sent sum_sent, some sum_sent)
          else acc)
        ((-1 : ℚ), (none : Option String))
      (⟨gt_sent, best.2, best.1, decide (threshold ≤ best.1)⟩ : CoverageSentenceResult))
    let covered_count := per.countP (·.is_covered)
    let omissions := (per.filter (fun r => !r.is_covered)).map
      (fun r => (⟨r.ground_truth_sentence, r.similarity, r.best_match⟩ : CoverageOmission))
    let pct := ((covered_count : ℚ) / (gt_sentences.length : ℚ)) * 100
    ⟨per, omissions, some gt_sentences.length, some covered_count, pct, pct / 100, some threshold⟩

/- ### Judge response parsing (src/evaluators/judge_evaluator.py) -/

/-- JSON values, the result type of the external json.loads. -/
inductive Json where
  | null : Json
  | bool : Bool → Json
  | num : ℚ → Json
  | str : String → Json
  | arr : List Json → Json
  | obj : List (String × Json) → Json

/-- Lookup in a JSON object; on duplicate keys the last wins, as in a Python
dict built by json.loads. -/
def objGet (fields : List (String × Json)) (key : String) : Option Json :=
  ((fields.filter (fun f => f.1 == key)).getLast?).map Prod.snd

/-- Model of the regex search for the block from the first opening brace to
the last closing brace (src/evaluators/judge_evaluator.py:97, pattern
brace-anything-brace with a greedy body): it matches exactly when some
closing brace follows the first opening brace strictly. -/
def extractBraceBlock (s : String) : Option String :=
  let l := s.data
  match l.findIdx? (fun c => c = '\x7b') with
  | none => none
  | some i =>
    match l.reverse.findIdx? (fun c => c = '\x7d') with
    | none => none
    | some r =>
      let j := l.length - 1 - r
      if i < j then some (String.mk ((l.drop i).take (j - i + 1))) else none

/-- Hexadecimal digit value, for the unicode escapes of JSON strings. -/
def hexVal (c : Char) : Option ℕ :=
  if 48 ≤ c.toNat ∧ c.toNat ≤ 57 then some (c.toNat - 48)
  else if 97 ≤ c.toNat ∧ c.toNat ≤ 102 then some (c.toNat - 87)
  else if 65 ≤ c.toNat ∧ c.toNat ≤ 70 then some (c.toNat - 55)
  else none

/-- Whitespace skipping of the JSON grammar. -/
def jsonSkipWs : List Char → List Char
  | [] => []
  | c :: cs => if c = ' ' ∨ c = '\n' ∨ c = '\t' ∨ c = '\r' then jsonSkipWs cs else c :: cs

/-- Body of a JSON string literal after the opening quote: the decoded
characters and the remainder after the closing quote. -/
def parseStringBody : List Char → Option (List Char × List Char)
  | [] => none
  | c :: cs =>
    if c = '"' then some ([], cs)
    else if c = '\\' then
      match cs with
      | [] => none
      | e :: cs2 =>
        if e = 'n' then (parseStringBody cs2).map (fun r => ('\n' :: r.1, r.2))
        else if e = 't' then (parseStringBody cs2).map (fun r => ('\t' :: r.1, r.2))
        else if e = 'r' then (parseStringBody cs2).map (fun r => ('\r' :: r.1, r.2))
        else if e = 'b' then (parseStringBody cs2).map (fun r => (Char.ofNat 8 :: r.1, r.2))
        else if e = 'f' then (parseStringBody cs2).map (fun r => (Char.ofNat 12 :: r.1, r.2))
        else if e = '"' ∨ e = '\\' ∨ e = '/' then
          (parseStringBody cs2).map (fun r => (e :: r.1, r.2))
        else if e = 'u' then
          match cs2 with
          | a :: b :: c3 :: d :: cs3 =>
            match hexVal a, hexVal b, hexVal c3, hexVal d with
            | some va, some vb, some vc, some vd =>
              (parseStringBody cs3).map
                (fun r => (Char.ofNat (4096 * va + 256 * vb + 16 * vc + vd) :: r.1, r.2))
            | _, _, _, _ => none
          | _ => none
        else none
    else (parseStringBody cs).map (fun r => (c :: r.1, r.2))

/-- Digit run: value, number of digits, remainder. -/
def parseDigits (cs : List Char) : Option (ℕ × ℕ × List Char) :=
  let ds := cs.takeWhile (fun c => 48 ≤ c.toNat ∧ c.toNat ≤ 57)
  if ds.isEmpty then none
  else some (ds.foldl (fun acc d => 10 * acc + (d.toNat - 48)) 0, ds.length, cs.drop ds.length)

/-- JSON number: optional minus, integer part, optional fraction, optional
exponent, evaluated exactly in the rationals. -/
def parseNumber (cs : List Char) : Option (ℚ × List Char) :=
  let negAndRest : Bool × List Char :=
    match cs with
    | c :: rest => if c = '-' then (true, rest) else (false, cs)
    | [] => (false, cs)
  match parseDigits negAndRest.2 with
  | none => none
  | some (ip, _, cs2) =>
    let fracAndRest : ℚ × List Char :=
      match cs2 with
      | c :: rest =>
        if c = '.' then
          match parseDigits rest with
          | some (fp, fc, cs3) => ((fp : ℚ) / (10 : ℚ) ^ fc, cs3)
          | none => (0, cs2)
        else (0, cs2)
      | [] => (0, cs2)
    let expAndRest : ℤ × List Char :=
      match fracAndRest.2 with
      | c :: rest =>
        if c = 'e' ∨ c = 'E' then
          match rest with
          | d :: rest2 =>
            if d = '-' then
              match parseDigits rest2 with
              | some (ev, _, cs4) => (-(ev : ℤ), cs4)
              | none => (0, fracAndRest.2)
            else if d = '+' then
              match parseDigits rest2 with
              | some (ev, _, cs4) => ((ev : ℤ), cs4)
              | none => (0, fracAndRest.2)
            else
              match parseDigits rest with
              | some (ev, _, cs4) => ((ev : ℤ), cs4)
              | none => (0, fracAndRest.2)
          | [] => (0, fracAndRest.2)
        else (0, fracAndRest.2)
      | [] => (0, fracAndRest.2)
    let base := ((ip : ℚ) + fracAndRest.1) * (10 : ℚ) ^ expAndRest.1
    some (if negAndRest.1 then -base else base, expAndRest.2)

mutual

/-- Recursive-descent JSON value parser (fuel-indexed), modelling the
external json.loads grammar. -/
def parseJsonValue : ℕ → List Char → Option (Json × List Char)
  | 0, _ => none
  | fuel + 1, cs =>
    match jsonSkipWs cs with
    | [] => none
    | c :: rest =>
      if c = '\x7b' then
        match jsonSkipWs rest with
        | d :: rest2 =>
          if d = '\x7d' then some (Json.obj [], rest2)
          else
            (parseObjItems fuel (jsonSkipWs rest)).map (fun r => (Json.obj r.1, r.2))
        | [] => none
      else if c = '[' then
        match jsonSkipWs rest with
        | d :: rest2 =>
          if d = ']' then some (Json.arr [], rest2)
          else (parseArrItems fuel (jsonSkipWs rest)).map (fun r => (Json.arr r.1, r.2))
        | [] => none
      else if c = '"' then
        (parseStringBody rest).map (fun r => (Json.str (String.mk r.1), r.2))
      else if c = 't' then
        match rest with
        | 'r' :: 'u' :: 'e' :: rest2 => some (Json.bool true, rest2)
        | _ => none
      else if c = 'f' then
        match rest with
        | 'a' :: 'l' :: 's' :: 'e' :: rest2 => some (Json.bool false, rest2)
        | _ => none
      else if c = 'n' then
        match rest with
        | 'u' :: 'l' :: 'l' :: rest2 => some (Json.null, rest2)
        | _ => none
      else
        (parseNumber (c :: rest)).map (fun r => (Json.num r.1, r.2))

/-- Members of a nonempty JSON object after the opening brace. -/
def parseObjItems : ℕ → List Char → Option (List (String × Json) × List Char)
  | 0, _ => none
  | fuel + 1, cs =>
    match jsonSkipWs cs with
    | '"' :: rest =>
      match parseStringBody rest with
      | none => none
      | some (key, rest2) =>
        match jsonSkipWs rest2 with
        | ':' :: rest3 =>
          match parseJsonValue fuel rest3 with
          | none => none
          | some (v, rest4) =>
            match jsonSkipWs rest4 with
            | ',' :: rest5 =>
              (parseObjItems fuel rest5).map (fun r => ((String.mk key, v) :: r.1, r.2))
            | '\x7d' :: rest5 => some ([(String.mk key, v)], rest5)
            | _ => none
        | _ => none
    | _ => none

/-- Members of a nonempty JSON array after the opening bracket. -/
def parseArrItems : ℕ → List Char → Option (List Json × List Char)
  | 0, _ => none
  | fuel + 1, cs =>
    match parseJsonValue fuel cs with
    | none => none
    | some (v, rest) =>
      match jsonSkipWs rest with
      | ',' :: rest2 => (parseArrItems fuel rest2).map (fun r => (v :: r.1, r.2))
      | ']' :: rest2 => some ([v], rest2)
      | _ => none

end

/-- Model of the external json.loads: parse one value and require only
whitespace to remain. -/
def jsonLoads (s : String) : Option Json :=
  match parseJsonValue (2 * s.data.length + 2) s.data with
  | some (v, rest) => if (jsonSkipWs rest).isEmpty then some v else none
  | none => none

/-- Neutral default returned on judge parse failure
(src/evaluators/judge_evaluator.py:106-116). -/
def defaultJudgeResult (response : String) : Json :=
  Json.obj [("factual_accuracy", Json.num 3), ("completeness", Json.num 3),
    ("factual_errors", Json.arr []), ("hedging_detected", Json.bool false),
    ("hedging_examples", Json.arr []), ("key_omissions", Json.arr []),
    ("overall_assessment", Json.str "Parse error - could not extract structured evaluation"),
    ("parse_error", Json.bool true), ("raw_response", Json.str (String.mk (response.data.take 500)))]

/-- Embedding of parse_judge_response (src/evaluators/judge_evaluator.py:86-116),
parametrised by the JSON decoder: extract the first-brace-to-last-brace block
and decode it; on extraction or decoding failure return the neutral default. -/
def parse_judge_response (loads : String → Option Json) (response : String) : Json :=
  match extractBraceBlock response with
  | some block =>
    match loads block with
    | some j => j
    | none => defaultJudgeResult response
  | none => defaultJudgeResult response

/-- Judge-score computation of JudgeEvaluator.evaluate_summary
(src/evaluators/judge_evaluator.py:181-183): look up the two rubric scores
in the parsed dict and divide their sum by 10; none models the KeyError or
TypeError Python raises when a key is missing or non-numeric. -/
def computeJudgeScore : Json → Option ℚ
  | Json.obj fields =>
    match objGet fields "factual_accuracy", objGet fields "completeness" with
    | some (Json.num a), some (Json.num b) => some ((a + b) / 10)
    | _, _ => none
  | _ => none

/-- Parse a judge response and compute the judge score, the composition run
for every response by JudgeEvaluator.evaluate_summary. -/
def judgeScoreOfResponse (loads : String → Option Json) (response : String) : Option ℚ :=
  computeJudgeScore (parse_judge_response loads response)

/- ### Quadratic-weighted Cohen kappa (src/evaluators/meta_evaluator.py) -/

/-- Category-to-index map of the kappa computation: the index of the rating
in the category list, or 0 when absent, as dict.get(r, 0) does.  The Python
dict keeps the last occurrence on duplicate categories; for duplicate-free
category lists, as at every call site, this is the first index. -/
def catToIdx (categories : List ℤ) (r : ℤ) : ℕ :=
  if r ∈ categories then categories.indexOf r else 0

/-- Normalized confusion matrix entry (src/evaluators/meta_evaluator.py:386-393):
the count of paired ratings mapping to cell (i, j), divided by the number
of ratings. -/
def kappaConfusion (rater1 rater2 : List ℤ) (categories : List ℤ) (i j : ℕ) : ℚ :=
  ((((rater1.zip rater2).countP
      (fun p => catToIdx categories p.1 == i && catToIdx categories p.2 == j)) : ℕ) : ℚ)
    / ((rater1.length : ℕ) : ℚ)

/-- Row marginal of the normalized confusion matrix. -/
def kappaRowMarginal (rater1 rater2 : List ℤ) (categories : List ℤ) (i : ℕ) : ℚ :=
  ∑ j ∈ Finset.range categories.length, kappaConfusion rater1 rater2 categories i j

/-- Column marginal of the normalized confusion matrix. -/
def kappaColMarginal (rater1 rater2 : List ℤ) (categories : List ℤ) (j : ℕ) : ℚ :=
  ∑ i ∈ Finset.range categories.length, kappaConfusion rater1 rater2 categories i j

/-- Quadratic disagreement weight (i - j)^2 / (k - 1)^2
(src/evaluators/meta_evaluator.py:404-407). -/
def quadWeight (k : ℕ) (i j : ℕ) : ℚ :=
  ((i : ℚ) - (j : ℚ)) ^ 2 / ((k : ℚ) - 1) ^ 2

/-- Observed weighted disagreement: the weighted sum of the confusion matrix. -/
def observedDisagreement (rater1 rater2 : List ℤ) (categories : List ℤ) : ℚ :=
  ∑ i ∈ Finset.range categories.length, ∑ j ∈ Finset.range categories.length,
    quadWeight categories.length i j * kappaConfusion rater1 rater2 categories i j

/-- Expected weighted disagreement under the outer-product (independence)
null: the weighted sum of the outer product of the marginals. -/
def expectedDisagreement (rater1 rater2 : List ℤ) (categories : List ℤ) : ℚ :=
  ∑ i ∈ Finset.range categories.length, ∑ j ∈ Finset.range categories.length,
    quadWeight categories.length i j *
      (kappaRowMarginal rater1 rater2 categories i * kappaColMarginal rater1 rater2 categories j)

/-- Embedding of _weighted_kappa (src/evaluators/meta_evaluator.py:376-417):
kappa is 1 - observed/expected weighted disagreement, and 1 outright when
the expected disagreement is 0. -/
def _weighted_kappa (rater1 rater2 : List ℤ) (categories : List ℤ) : ℚ :=
  if expectedDisagreement rater1 rater2 categories = 0 then 1
  else 1 - observedDisagreement rater1 rater2 categories
    / expectedDisagreement rater1 rater2 categories

/- ### Error taxonomy (src/evaluators/error_taxonomy.py) -/

/-- Embedding of the TAXONOMY table (src/evaluators/error_taxonomy.py:33-137)
in declaration order: category key and regex pattern list (the label,
description and severity weight play no role in classification). -/
def TAXONOMY : List (String × List String) :=
  [("wrong_holding",
    ["(?i)holding", "(?i)outcome", "(?i)decided.*wrong",
     "(?i)reversed.*affirmed|affirmed.*reversed", "(?i)who won", "(?i)ruling",
     "(?i)judgment.*incorrect", "(?i)misstat.*decision"]),
   ("wrong_vote_count",
    ["(?i)vote\\s*(count|split|tally)",
     "(?i)\\d+[\\s-]+\\d+.*(?:wrong|incorrect|not|different)",
     "(?i)(?:wrong|incorrect).*\\d+[\\s-]+\\d+", "(?i)majority.*(?:number|count)"]),
   ("fabricated_precedent",
    ["(?i)(?:not|never)\\s+(?:mentioned|cited|referenced|present|found|in)\\s+(?:in\\s+)?(?:the\\s+)?(?:reference|source|ground\\s*truth)",
     "(?i)fabricat", "(?i)invented", "(?i)hallucin",
     "(?i)does\\s+not\\s+(?:appear|exist|mention)",
     "(?i)not\\s+in\\s+(?:the\\s+)?(?:reference|source|original)",
     "(?i)no\\s+(?:mention|reference|basis)", "(?i)added.*not.*(?:reference|source)"]),
   ("merged_parties",
    ["(?i)(?:petitioner|respondent|plaintiff|defendant|appellant).*(?:wrong|incorrect|confused|mixed|switched)",
     "(?i)(?:wrong|incorrect).*(?:petitioner|respondent|plaintiff|defendant|party)",
     "(?i)confus.*(?:parties|party|petitioner|respondent)",
     "(?i)(?:attributed|assigns|ascribed).*(?:wrong|incorrect).*(?:party|person|justice)"]),
   ("omitted_dissent", ["(?i)dissent", "(?i)dissenting\\s+opinion"]),
   ("omitted_concurrence", ["(?i)concurr", "(?i)concurring\\s+opinion", "(?i)concurrence"]),
   ("wrong_legal_standard",
    ["(?i)(?:legal|constitutional)\\s+(?:standard|test|framework|doctrine|principle)",
     "(?i)(?:wrong|incorrect|misappl|misstat).*(?:test|standard|clause|amendment)",
     "(?i)(?:fourth|first|second|fifth|fourteenth)\\s+amendment.*(?:wrong|incorrect)"]),
   ("invented_detail",
    ["(?i)(?:specific|exact)\\s+(?:date|detail|name|number|figure)",
     "(?i)(?:date|detail|name).*(?:not|never).*(?:mentioned|reference|source)",
     "(?i)(?:adds|added|introduces|introduced).*(?:specific|detail|information)",
     "(?i)this\\s+(?:specific\\s+)?(?:detail|information|date|name).*not"]),
   ("wrong_justice_attribution",
    ["(?i)justice.*(?:wrong|incorrect|did\\s+not|didn\x27t)",
     "(?i)(?:wrong|incorrect).*justice",
     "(?i)(?:authored|wrote|delivered).*(?:wrong|incorrect|not)",
     "(?i)(?:not|wrong).*(?:authored|wrote|delivered)"])]

/-- Embedding of classify_error (src/evaluators/error_taxonomy.py:200-218),
parametrised by the external regex matcher re_search (pattern, text): join
the issue and quote texts, collect every category one of whose patterns
matches, in table-declaration order, and fall back to the single tag
"other" when none matches. -/
def classify_error (re_search : String → String → Bool)
    (issue_text error_quote : String) : List String :=
  let combined_text := pyStrip (issue_text ++ " " ++ error_quote)
  let matched := (TAXONOMY.filter (fun cat => cat.2.any (fun p => re_search p combined_text))).map
    Prod.fst
  if matched.isEmpty then ["other"] else matched

/-- Primary category of a classified error record
(src/evaluators/error_taxonomy.py:293): the head of the category list,
which classify_error never leaves empty. -/
def primary_category (re_search : String → String → Bool)
    (issue_text error_quote : String) : String :=
  (classify_error re_search issue_text error_quote).headD "other"

/- ### Concrete instances used by individual claims -/

/-- Classifier instance that never reports a contradiction. -/
def neutralClassify : String → String → NLIClassification :=
  fun _ _ => ⟨NLILabel.neutral, []⟩

/-- Classifier instance that reports a contradiction exactly when the premise
is the three-letter candidate sentence used in the filter counterexample. -/
def contraOnAbc : String → String → NLIClassification :=
  fun premise _ => if premise = "abc" then ⟨NLILabel.contradiction, []⟩ else ⟨NLILabel.neutral, []⟩

/-- Pillar dict holding only a judge score, for the aggregator counterexample. -/
def judgeOnlyDict : PillarDict :=
  ⟨none, some (3/5), none⟩

/-- Pillar dict with nli score 1, for the convexity counterexample. -/
def nliOneDict : PillarDict :=
  ⟨some 1, none, none⟩

/-- Pillar dict with judge score 0, for the convexity counterexample. -/
def judgeZeroDict : PillarDict :=
  ⟨none, some 0, none⟩

/-- Pillar dict with coverage score 1, for the convexity counterexample. -/
def covOneDict : PillarDict :=
  ⟨none, none, some 1⟩

/-- Matcher instance that matches exactly the literal dissent pattern,
for the taxonomy witness. -/
def dissentOnlyMatcher : String → String → Bool :=
  fun p _ => p == "(?i)dissent"

/- ### Helper lemmas -/

/-- Lookup commutes with a key-preserving map of the values. -/
lemma lookup_map_value {β γ : Type} (l : List (String × β)) (g : String → β → γ) (k : String) :
    (l.map (fun p => (p.1, g p.1 p.2))).lookup k = (l.lookup k).map (g k) := by
  induction l with
  | nil => rfl
  | cons a t ih =>
    obtain ⟨ka, va⟩ := a
    by_cases h : k = ka
    · subst h
      simp [List.lookup]
    · have hb : (k == ka) = false := beq_false_of_ne h
      simp [List.lookup, hb, ih]

/-- Pairs in the zip of a list with itself have equal components. -/
lemma mem_zip_self {α : Type} {p : α × α} : ∀ {l : List α}, p ∈ l.zip l → p.1 = p.2
  | [], h => by simp at h
  | a :: t, h => by
    rcases List.mem_cons.mp h with h | h
    · rw [h]
    · exact mem_zip_self h

/-- Head of a filtered list is the first element satisfying the predicate. -/
lemma head?_filter_eq_find? {α : Type} (p : α → Bool) (l : List α) :
    (l.filter p).head? = l.find? p := by
  induction l with
  | nil => rfl
  | cons a t ih =>
    cases h : p a
    · simp [List.filter_cons, List.find?_cons, h, ih]
    · simp [List.filter_cons, List.find?_cons, h]

/-- Rate field of the NLI result, by definition. -/
lemma nli_rate_def (classify_pair : String → String → NLIClassification)
    (gt_sentences summary_sentences : List String) :
    (NLIEvaluator.evaluate_summary classify_pair gt_sentences summary_sentences).contradiction_rate =
      (if 0 < (NLIEvaluator.evaluate_summary classify_pair gt_sentences summary_sentences).total_sentences
       then ((NLIEvaluator.evaluate_summary classify_pair gt_sentences summary_sentences).count_contradiction : ℚ) /
         ((NLIEvaluator.evaluate_summary classify_pair gt_sentences summary_sentences).total_sentences : ℚ)
       else 0) := rfl

/-- Score field of the NLI result, by definition. -/
lemma nli_score_def (classify_pair : String → String → NLIClassification)
    (gt_sentences summary_sentences : List String) :
    (NLIEvaluator.evaluate_summary classify_pair gt_sentences summary_sentences).nli_score =
      1 - (NLIEvaluator.evaluate_summary classify_pair gt_sentences summary_sentences).contradiction_rate := rfl

/-- Contradiction count never exceeds the sentence total. -/
lemma nli_count_le_total (classify_pair : String → String → NLIClassification)
    (gt_sentences summary_sentences : List String) :
    (NLIEvaluator.evaluate_summary classify_pair gt_sentences summary_sentences).count_contradiction ≤
      (NLIEvaluator.evaluate_summary classify_pair gt_sentences summary_sentences).total_sentences :=
  List.countP_le_length _

/- ### C4 -/

/-- C4: for every input pair the contradiction detector returns
contradiction_rate in [0,1] and nli_score in [0,1] with
nli_score + contradiction_rate equal to 1 exactly (scores are embedded as
exact rationals, modelling the Python float arithmetic exactly). -/
theorem nli_score_bounds_and_sum (classify_pair : String → String → NLIClassification)
    (gt_sentences summary_sentences : List String) :
    0 ≤ (NLIEvaluator.evaluate_summary classify_pair gt_sentences summary_sentences).contradiction_rate ∧
    (NLIEvaluator.evaluate_summary classify_pair gt_sentences summary_sentences).contradiction_rate ≤ 1 ∧
    0 ≤ (NLIEvaluator.evaluate_summary classify_pair gt_sentences summary_sentences).nli_score ∧
    (NLIEvaluator.evaluate_summary classify_pair gt_sentences summary_sentences).nli_score ≤ 1 ∧
    (NLIEvaluator.evaluate_summary classify_pair gt_sentences summary_sentences).nli_score +
      (NLIEvaluator.evaluate_summary classify_pair gt_sentences summary_sentences).contradiction_rate = 1 := by
  have hle := nli_count_le_total classify_pair gt_sentences summary_sentences
  have hrate := nli_rate_def classify_pair gt_sentences summary_sentences
  have hscore := nli_score_def classify_pair gt_sentences summary_sentences
  set c := (NLIEvaluator.evaluate_summary classify_pair gt_sentences summary_sentences).count_contradiction
  set t := (NLIEvaluator.evaluate_summary classify_pair gt_sentences summary_sentences).total_sentences
  have hbounds : 0 ≤ (NLIEvaluator.evaluate_summary classify_pair gt_sentences
      summary_sentences).contradiction_rate ∧
      (NLIEvaluator.evaluate_summary classify_pair gt_sentences summary_sentences).contradiction_rate ≤ 1 := by
    rw [hrate]
    by_cases ht : 0 < t
    · have htq : (0 : ℚ) < (t : ℚ) := by exact_mod_cast ht
      have hcq : ((c : ℕ) : ℚ) ≤ ((t : ℕ) : ℚ) := by exact_mod_cast hle
      rw [if_pos ht]
      constructor
      · positivity
      · rw [div_le_one htq]
        exact hcq
    · rw [if_neg ht]
      norm_num
  refine ⟨hbounds.1, hbounds.2, ?_, ?_, ?_⟩
  · rw [hscore]; linarith [hbounds.2]
  · rw [hscore]; linarith [hbounds.1]
  · rw [hscore]; ring

/- ### C2 -/

/-- C2 (amended): if after stripping and minimum-length filtering the
reference sentence list is empty, or the candidate sentence list is empty,
the contradiction detector returns contradiction_rate 0 and nli_score 1
(not score 0) with zero contradictions, and does not raise. -/
theorem nli_empty_input_amended (classify_pair : String → String → NLIClassification)
    (gt_sentences summary_sentences : List String)
    (h : (gt_sentences.map pyStrip).filter (fun s => !decide (pyLen s < 10)) = [] ∨
      summary_sentences = []) :
    (NLIEvaluator.evaluate_summary classify_pair gt_sentences summary_sentences).contradiction_rate = 0 ∧
    (NLIEvaluator.evaluate_summary classify_pair gt_sentences summary_sentences).nli_score = 1 ∧
    (NLIEvaluator.evaluate_summary classify_pair gt_sentences summary_sentences).count_contradiction = 0 := by
  have hcount : (NLIEvaluator.evaluate_summary classify_pair gt_sentences
      summary_sentences).count_contradiction = 0 := by
    rcases h with h | h
    · show List.countP _ (List.map _ ((gt_sentences.map pyStrip).filter _)) = 0
      rw [h]
      rfl
    · subst h
      show List.countP _ (List.map _ _) = 0
      rw [List.countP_eq_zero]
      intro r hr
      obtain ⟨g, _, hg⟩ := List.mem_map.mp hr
      subst hg
      show ¬(("neutral/entailment" : String) == "contradiction") = true
      decide
  have hrate : (NLIEvaluator.evaluate_summary classify_pair gt_sentences
      summary_sentences).contradiction_rate = 0 := by
    rw [nli_rate_def, hcount]
    split <;> simp
  refine ⟨hrate, ?_, hcount⟩
  rw [nli_score_def, hrate]
  norm_num

/-- Witness for C2: a single reference sentence under 10 characters is
filtered out, so the detector reports rate 0, score 1, zero contradictions. -/
theorem nli_empty_input_witness :
    (((["short"] : List String).map pyStrip).filter (fun s => !decide (pyLen s < 10)) = [] ∨
      (["whatever sentence"] : List String) = []) ∧
    (NLIEvaluator.evaluate_summary neutralClassify ["short"] ["whatever sentence"]).contradiction_rate = 0 ∧
    (NLIEvaluator.evaluate_summary neutralClassify ["short"] ["whatever sentence"]).nli_score = 1 ∧
    (NLIEvaluator.evaluate_summary neutralClassify ["short"] ["whatever sentence"]).count_contradiction = 0 :=
  ⟨Or.inl (by decide),
    nli_empty_input_amended neutralClassify ["short"] ["whatever sentence"] (Or.inl (by decide))⟩

/-- Counterexample for C2 as frozen: on empty inputs the detector returns
nli_score 1.0, not the score 0 the claim states. -/
theorem nli_empty_input_score_one :
    (NLIEvaluator.evaluate_summary neutralClassify [] []).nli_score = 1 ∧
    ¬ (NLIEvaluator.evaluate_summary neutralClassify [] []).nli_score = 0 := by
  have h : (NLIEvaluator.evaluate_summary neutralClassify [] []).nli_score = 1 - 0 := rfl
  rw [h]
  norm_num

/- ### C5 -/

/-- C5 (amended): for any nonnegative weights summing to 1 and any three
pillar scores each in [0,1], compute_composite_score returns a
composite_score in [0,1]; nonnegativity of the weights is required, since a
negative weight summing to 1 escapes the interval. -/
theorem composite_convex_amended (dn dj dc : PillarDict) (wn wj wc : ℚ)
    (hsum : wn + wj + wc = 1) (hwn : 0 ≤ wn) (hwj : 0 ≤ wj) (hwc : 0 ≤ wc)
    (hn0 : 0 ≤ dn.nli_score.getD 0) (hn1 : dn.nli_score.getD 0 ≤ 1)
    (hj0 : 0 ≤ dj.judge_score.getD 0) (hj1 : dj.judge_score.getD 0 ≤ 1)
    (hc0 : 0 ≤ dc.coverage_score.getD 0) (hc1 : dc.coverage_score.getD 0 ≤ 1) :
    0 ≤ (compute_composite_score dn dj dc wn wj wc).composite_score ∧
    (compute_composite_score dn dj dc wn wj wc).composite_score ≤ 1 := by
  have hdef : (compute_composite_score dn dj dc wn wj wc).composite_score =
      wn * dn.nli_score.getD 0 + wj * dj.judge_score.getD 0 + wc * dc.coverage_score.getD 0 := rfl
  rw [hdef]
  constructor
  · positivity
  · nlinarith [mul_le_mul_of_nonneg_left hn1 hwn, mul_le_mul_of_nonneg_left hj1 hwj,
      mul_le_mul_of_nonneg_left hc1 hwc]

/-- Witness for C5: the default-shaped weights 1, 0, 0 and scores 1, 0, 1
give a composite inside [0,1]. -/
theorem composite_convex_witness :
    ((1 : ℚ) + 0 + 0 = 1 ∧ (0 : ℚ) ≤ 1 ∧ (0 : ℚ) ≤ 0 ∧
      0 ≤ nliOneDict.nli_score.getD 0 ∧ nliOneDict.nli_score.getD 0 ≤ 1 ∧
      0 ≤ judgeZeroDict.judge_score.getD 0 ∧ judgeZeroDict.judge_score.getD 0 ≤ 1 ∧
      0 ≤ covOneDict.coverage_score.getD 0 ∧ covOneDict.coverage_score.getD 0 ≤ 1) ∧
    (0 ≤ (compute_composite_score nliOneDict judgeZeroDict covOneDict 1 0 0).composite_score ∧
      (compute_composite_score nliOneDict judgeZeroDict covOneDict 1 0 0).composite_score ≤ 1) :=
  ⟨⟨by norm_num, by norm_num, by norm_num,
      by simp [nliOneDict], by simp [nliOneDict],
      by simp [judgeZeroDict], by simp [judgeZeroDict],
      by simp [covOneDict], by simp [covOneDict]⟩,
    composite_convex_amended nliOneDict judgeZeroDict covOneDict 1 0 0
      (by norm_num) (by norm_num) (by norm_num) (by norm_num)
      (by simp [nliOneDict]) (by simp [nliOneDict])
      (by simp [judgeZeroDict]) (by simp [judgeZeroDict])
      (by simp [covOneDict]) (by simp [covOneDict])⟩

/-- Counterexample for C5 as frozen: the weights 2, -3/2, 1/2 sum to 1 and
the pillar scores 1, 0, 1 lie in [0,1], yet the composite is 5/2, outside
[0,1]; the claim quantifies over all weights summing to 1, so it fails. -/
theorem composite_negative_weight_cex :
    ((2 : ℚ) + (-(3/2)) + (1/2) = 1) ∧
    (0 ≤ nliOneDict.nli_score.getD 0 ∧ nliOneDict.nli_score.getD 0 ≤ 1) ∧
    (0 ≤ judgeZeroDict.judge_score.getD 0 ∧ judgeZeroDict.judge_score.getD 0 ≤ 1) ∧
    (0 ≤ covOneDict.coverage_score.getD 0 ∧ covOneDict.coverage_score.getD 0 ≤ 1) ∧
    (compute_composite_score nliOneDict judgeZeroDict covOneDict 2 (-(3/2)) (1/2)).composite_score
      = 5/2 ∧
    ¬ (compute_composite_score nliOneDict judgeZeroDict covOneDict 2 (-(3/2))
        (1/2)).composite_score ≤ 1 := by
  refine ⟨by norm_num, ⟨?_, ?_⟩, ⟨?_, ?_⟩, ⟨?_, ?_⟩, ?_, ?_⟩ <;>
    norm_num [compute_composite_score, nliOneDict, judgeZeroDict, covOneDict]

/- ### C9 -/

/-- C9: for every nonempty pair of identical rating sequences over the
categories 1..5 the quadratic-weighted Cohen kappa is 1, and whenever the
expected weighted disagreement under the outer-product null is 0 the kappa
is reported as 1. -/
theorem weighted_kappa_identical (l : List ℤ) (hne : l ≠ [])
    (hrange : ∀ x ∈ l, 1 ≤ x ∧ x ≤ 5) :
    _weighted_kappa l l [1, 2, 3, 4, 5] = 1 ∧
    ∀ rater1 rater2 categories, expectedDisagreement rater1 rater2 categories = 0 →
      _weighted_kappa rater1 rater2 categories = 1 := by
  constructor
  · have hO : observedDisagreement l l [1, 2, 3, 4, 5] = 0 := by
      rw [observedDisagreement]
      apply Finset.sum_eq_zero
      intro i _
      apply Finset.sum_eq_zero
      intro j _
      by_cases hij : i = j
      · subst hij
        have hw : quadWeight ([1, 2, 3, 4, 5] : List ℤ).length i i = 0 := by
          simp [quadWeight]
        rw [hw, zero_mul]
      · have hc : kappaConfusion l l [1, 2, 3, 4, 5] i j = 0 := by
          rw [kappaConfusion]
          have hcount : (l.zip l).countP
              (fun p => catToIdx [1, 2, 3, 4, 5] p.1 == i && catToIdx [1, 2, 3, 4, 5] p.2 == j)
              = 0 := by
            rw [List.countP_eq_zero]
            intro p hp
            have hpp := mem_zip_self hp
            intro hcon
            rw [Bool.and_eq_true, beq_iff_eq, beq_iff_eq] at hcon
            exact hij (hcon.1 ▸ hcon.2 ▸ (by rw [hpp]))
          rw [hcount]
          simp
        rw [hc, mul_zero]
    rw [_weighted_kappa]
    split
    · rfl
    · rw [hO, zero_div, sub_zero]
  · intro rater1 rater2 categories h
    rw [_weighted_kappa, if_pos h]

/-- Witness for C9: the identical rating pair [3, 5] over categories 1..5
yields kappa 1. -/
theorem weighted_kappa_identical_witness :
    (([3, 5] : List ℤ) ≠ [] ∧ ∀ x ∈ ([3, 5] : List ℤ), 1 ≤ x ∧ x ≤ 5) ∧
    (_weighted_kappa [3, 5] [3, 5] [1, 2, 3, 4, 5] = 1 ∧
      ∀ rater1 rater2 categories, expectedDisagreement rater1 rater2 categories = 0 →
        _weighted_kappa rater1 rater2 categories = 1) :=
  ⟨⟨by decide, by decide⟩, weighted_kappa_identical [3, 5] (by decide) (by decide)⟩

/- ### C10 -/

/-- C10: for every matcher behaviour and record, classify_error returns the
matching taxonomy categories in table-declaration order, the single tag
"other" when no pattern matches the concatenated issue and quote text, and
the primary category is the earliest-declared matching category. -/
theorem classify_error_spec (re_search : String → String → Bool)
    (issue_text error_quote : String) :
    ((¬ ∃ cat ∈ TAXONOMY,
        cat.2.any (fun p => re_search p (pyStrip (issue_text ++ " " ++ error_quote))) = true) →
      classify_error re_search issue_text error_quote = ["other"] ∧
      primary_category re_search issue_text error_quote = "other") ∧
    ((∃ cat ∈ TAXONOMY,
        cat.2.any (fun p => re_search p (pyStrip (issue_text ++ " " ++ error_quote))) = true) →
      (classify_error re_search issue_text error_quote).Sublist (TAXONOMY.map Prod.fst) ∧
      (∀ k, k ∈ classify_error re_search issue_text error_quote ↔
        ∃ cat ∈ TAXONOMY, cat.1 = k ∧
          cat.2.any (fun p => re_search p (pyStrip (issue_text ++ " " ++ error_quote))) = true) ∧
      (∃ cat0,
        TAXONOMY.find?
          (fun cat => cat.2.any (fun p => re_search p (pyStrip (issue_text ++ " " ++ error_quote))))
          = some cat0 ∧
        primary_category re_search issue_text error_quote = cat0.1)) := by
  set t := pyStrip (issue_text ++ " " ++ error_quote) with ht
  set pm : String × List String → Bool := fun cat => cat.2.any (fun p => re_search p t) with hpm
  have hclassify : classify_error re_search issue_text error_quote =
      (if ((TAXONOMY.filter pm).map Prod.fst).isEmpty then ["other"]
       else (TAXONOMY.filter pm).map Prod.fst) := rfl
  constructor
  · intro hno
    have hfil : TAXONOMY.filter pm = [] := by
      rw [List.filter_eq_nil]
      intro cat hcat hcatm
      exact hno ⟨cat, hcat, hcatm⟩
    have h1 : classify_error re_search issue_text error_quote = ["other"] := by
      rw [hclassify, hfil]
      rfl
    exact ⟨h1, by rw [primary_category, h1]; rfl⟩
  · intro hyes
    obtain ⟨cat, hcat, hcatm⟩ := hyes
    have hfilne : TAXONOMY.filter pm ≠ [] := by
      intro hnil
      have := List.filter_eq_nil.mp hnil cat hcat
      exact this hcatm
    have hmapne : ((TAXONOMY.filter pm).map Prod.fst).isEmpty = false := by
      rw [List.isEmpty_eq_false_iff_exists_mem]
      obtain ⟨x, hx⟩ := List.exists_mem_of_ne_nil _ hfilne
      exact ⟨x.1, List.mem_map_of_mem _ hx⟩
    have hout : classify_error re_search issue_text error_quote =
        (TAXONOMY.filter pm).map Prod.fst := by
      rw [hclassify, hmapne]
      rfl
    refine ⟨?_, ?_, ?_⟩
    · rw [hout]
      exact (List.filter_sublist TAXONOMY).map Prod.fst
    · intro k
      rw [hout]
      constructor
      · intro hk
        obtain ⟨c, hc, hck⟩ := List.mem_map.mp hk
        exact ⟨c, (List.mem_filter.mp hc).1, hck, (List.mem_filter.mp hc).2⟩
      · intro ⟨c, hc, hck, hcm⟩
        exact List.mem_map.mpr ⟨c, List.mem_filter.mpr ⟨hc, hcm⟩, hck⟩
    · have hfind : (TAXONOMY.filter pm).head? = TAXONOMY.find? pm := head?_filter_eq_find? pm TAXONOMY
      obtain ⟨x, hx⟩ := List.exists_mem_of_ne_nil _ hfilne
      obtain ⟨c0, hc0⟩ : ∃ c0, (TAXONOMY.filter pm).head? = some c0 := by
        cases hh : (TAXONOMY.filter pm).head? with
        | none => exact absurd (List.head?_eq_none_iff.mp hh) hfilne
        | some c0 => exact ⟨c0, rfl⟩
      refine ⟨c0, by rw [← hfind]; exact hc0, ?_⟩
      rw [primary_category, hout]
      cases hfl : TAXONOMY.filter pm with
      | nil => exact absurd hfl hfilne
      | cons a rest =>
        rw [hfl] at hc0
        simp only [List.head?_cons, Option.some.injEq] at hc0
        subst hc0
        rfl

/-- Witness for C10: a matcher that fires exactly on the literal dissent
pattern classifies a record as omitted_dissent, the earliest (and only)
matching category. -/
theorem classify_error_spec_witness :
    (∃ cat ∈ TAXONOMY, cat.2.any
      (fun p => dissentOnlyMatcher p (pyStrip ("issue text" ++ " " ++ "quote text"))) = true) ∧
    ((classify_error dissentOnlyMatcher "issue text" "quote text").Sublist
        (TAXONOMY.map Prod.fst) ∧
      (∀ k, k ∈ classify_error dissentOnlyMatcher "issue text" "quote text" ↔
        ∃ cat ∈ TAXONOMY, cat.1 = k ∧ cat.2.any
          (fun p => dissentOnlyMatcher p (pyStrip ("issue text" ++ " " ++ "quote text"))) = true) ∧
      (∃ cat0, TAXONOMY.find? (fun cat => cat.2.any
          (fun p => dissentOnlyMatcher p (pyStrip ("issue text" ++ " " ++ "quote text"))))
          = some cat0 ∧
        primary_category dissentOnlyMatcher "issue text" "quote text" = cat0.1)) :=
  ⟨by decide, (classify_error_spec dissentOnlyMatcher "issue text" "quote text").2 (by decide)⟩

/- ### C8 -/

/-- C8 (amended): whenever no brace block can be extracted from the judge
response, or the extracted block fails to decode, parse_judge_response
returns the neutral default (accuracy 3, completeness 3, empty lists,
parse_error true) and the judge-score computation yields 3/5 without
raising; a successfully decoded JSON object that lacks the score keys makes
the judge-score computation raise, so the parsing pipeline as a whole is
not raise-free on every response string. -/
theorem judge_parse_failure_amended (loads : String → Option Json) (response : String)
    (h : extractBraceBlock response = none ∨
      ∀ block, extractBraceBlock response = some block → loads block = none) :
    parse_judge_response loads response = defaultJudgeResult response ∧
    judgeScoreOfResponse loads response = some (3/5) ∧
    objGet [("factual_accuracy", Json.num 3), ("completeness", Json.num 3),
      ("factual_errors", Json.arr []), ("hedging_detected", Json.bool false),
      ("hedging_examples", Json.arr []), ("key_omissions", Json.arr []),
      ("overall_assessment", Json.str "Parse error - could not extract structured evaluation"),
      ("parse_error", Json.bool true),
      ("raw_response", Json.str (String.mk (response.data.take 500)))] "parse_error"
      = some (Json.bool true) := by
  have hparse : parse_judge_response loads response = defaultJudgeResult response := by
    rw [parse_judge_response]
    rcases h with h | h
    · rw [h]
    · cases hx : extractBraceBlock response with
      | none => rfl
      | some block =>
        show (match loads block with
          | some j => j
          | none => defaultJudgeResult response) = defaultJudgeResult response
        rw [h block hx]
  refine ⟨hparse, ?_, by rfl⟩
  rw [judgeScoreOfResponse, hparse]
  show some ((3 + 3) / 10 : ℚ) = some (3/5)
  norm_num

/-- Witness for C8: a response with no brace block at all parses to the
neutral default and the judge score is computed without raising. -/
theorem judge_parse_failure_witness :
    (extractBraceBlock "no json here" = none ∨
      ∀ block, extractBraceBlock "no json here" = some block → jsonLoads block = none) ∧
    (parse_judge_response jsonLoads "no json here" = defaultJudgeResult "no json here" ∧
      judgeScoreOfResponse jsonLoads "no json here" = some (3/5) ∧
      objGet [("factual_accuracy", Json.num 3), ("completeness", Json.num 3),
        ("factual_errors", Json.arr []), ("hedging_detected", Json.bool false),
        ("hedging_examples", Json.arr []), ("key_omissions", Json.arr []),
        ("overall_assessment", Json.str "Parse error - could not extract structured evaluation"),
        ("parse_error", Json.bool true),
        ("raw_response", Json.str (String.mk ("no json here".data.take 500)))] "parse_error"
        = some (Json.bool true)) :=
  ⟨Or.inl rfl, judge_parse_failure_amended jsonLoads "no json here" (Or.inl rfl)⟩

/-- Counterexample for C8 as frozen: the response consisting of an empty
JSON object extracts and decodes successfully, yet the subsequent
judge-score computation raises a KeyError (modelled by none), so parsing
plus score computation is not raise-free for every response string. -/
theorem judge_parse_empty_object_raises :
    extractBraceBlock "\x7b\x7d" = some "\x7b\x7d" ∧
    jsonLoads "\x7b\x7d" = some (Json.obj []) ∧
    judgeScoreOfResponse jsonLoads "\x7b\x7d" = none :=
  ⟨rfl, rfl, rfl⟩

/- ### C1 -/

/-- C1 (amended): compute_composite_score defaults every missing or empty
pillar result to pillar score 0 and always returns the weighted composite
without raising, and the aggregator produces a composite exactly for the
keys present in the NLI results store -- a key present only in the judge or
coverage store is skipped, since the aggregation loops run over the NLI
store's keys. -/
theorem composite_missing_pillar_amended :
    (∀ (dn dj dc : PillarDict) (wn wj wc : ℚ),
      (compute_composite_score dn dj dc wn wj wc).composite_score =
        wn * (compute_composite_score dn dj dc wn wj wc).nli_score +
        wj * (compute_composite_score dn dj dc wn wj wc).judge_score +
        wc * (compute_composite_score dn dj dc wn wj wc).coverage_score ∧
      (dn.nli_score = none → (compute_composite_score dn dj dc wn wj wc).nli_score = 0) ∧
      (dj.judge_score = none → (compute_composite_score dn dj dc wn wj wc).judge_score = 0) ∧
      (dc.coverage_score = none →
        (compute_composite_score dn dj dc wn wj wc).coverage_score = 0)) ∧
    (∀ (nli_results judge_results coverage_results :
        List (String × List (String × PillarDict))) (wn wj wc : ℚ) (case_name model : String),
      (((compute_all_composite_scores nli_results judge_results coverage_results
          wn wj wc).per_case.lookup case_name).bind (fun ms => ms.lookup model)).isSome =
      ((nli_results.lookup case_name).bind (fun ms => ms.lookup model)).isSome) := by
  constructor
  · intro dn dj dc wn wj wc
    refine ⟨rfl, ?_, ?_, ?_⟩
    · intro h
      show dn.nli_score.getD 0 = 0
      rw [h]
      rfl
    · intro h
      show dj.judge_score.getD 0 = 0
      rw [h]
      rfl
    · intro h
      show dc.coverage_score.getD 0 = 0
      rw [h]
      rfl
  · intro n j c wn wj wc case_name model
    have h1 : (compute_all_composite_scores n j c wn wj wc).per_case.lookup case_name =
        (n.lookup case_name).map (fun ms => ms.map (fun me => (me.1,
          compute_composite_score
            (lookupD (lookupD n case_name []) me.1 PillarDict.empty)
            (lookupD (lookupD j case_name []) me.1 PillarDict.empty)
            (lookupD (lookupD c case_name []) me.1 PillarDict.empty) wn wj wc))) :=
      lookup_map_value n (fun (cn : String) (ms : List (String × PillarDict)) =>
        ms.map (fun (me : String × PillarDict) => (me.1,
        compute_composite_score
          (lookupD (lookupD n cn []) me.1 PillarDict.empty)
          (lookupD (lookupD j cn []) me.1 PillarDict.empty)
          (lookupD (lookupD c cn []) me.1 PillarDict.empty) wn wj wc))) case_name
    rw [h1]
    cases hn : n.lookup case_name with
    | none => rfl
    | some ms =>
      have h2 : (ms.map (fun me => (me.1,
          compute_composite_score
            (lookupD (lookupD n case_name []) me.1 PillarDict.empty)
            (lookupD (lookupD j case_name []) me.1 PillarDict.empty)
            (lookupD (lookupD c case_name []) me.1 PillarDict.empty) wn wj wc))).lookup model =
          (ms.lookup model).map (fun _ => compute_composite_score
            (lookupD (lookupD n case_name []) model PillarDict.empty)
            (lookupD (lookupD j case_name []) model PillarDict.empty)
            (lookupD (lookupD c case_name []) model PillarDict.empty) wn wj wc) :=
        lookup_map_value ms (fun (m : String) (_ : PillarDict) => compute_composite_score
          (lookupD (lookupD n case_name []) m PillarDict.empty)
          (lookupD (lookupD j case_name []) m PillarDict.empty)
          (lookupD (lookupD c case_name []) m PillarDict.empty) wn wj wc) model
      show ((ms.map _).lookup model).isSome = ((ms.lookup model)).isSome
      rw [h2]
      cases ms.lookup model <;> rfl

/-- Witness for C1: an empty pillar dict has no nli score and the composite
of three empty pillars reports pillar score 0. -/
theorem composite_missing_pillar_witness :
    (PillarDict.empty.nli_score = none) ∧
    (compute_composite_score PillarDict.empty PillarDict.empty PillarDict.empty
      1 1 1).nli_score = 0 :=
  ⟨rfl, (composite_missing_pillar_amended.1 PillarDict.empty PillarDict.empty PillarDict.empty
    1 1 1).2.1 rfl⟩

/-- Counterexample for C1 as frozen: a key that has a judge pillar result
but no NLI result receives no composite score -- per_case is empty although
the key is present in the judge store. -/
theorem composite_aggregator_skips_key :
    (compute_all_composite_scores [] [("case1", [("m1", judgeOnlyDict)])] []
      (35/100) (40/100) (25/100)).per_case = [] ∧
    ((([("case1", [("m1", judgeOnlyDict)])] :
        List (String × List (String × PillarDict))).lookup "case1").bind
      (fun ms => ms.lookup "m1")).isSome = true :=
  ⟨rfl, rfl⟩

/- ### C3 -/

/-- Invariant of the best-match fold of the coverage evaluator: any sentence
reported as best match comes from the accumulator or the scanned list. -/
lemma foldl_best_snd (sim : String → String → ℚ) (g : String) (P : String → Prop) :
    ∀ (ss : List String) (acc : ℚ × Option String),
      (∀ x, acc.2 = some x → P x) → (∀ x ∈ ss, P x) →
      ∀ x, (ss.foldl (fun a s => if a.1 < sim g s then (sim g s, some s) else a) acc).2 = some x →
        P x
  | [], _, hacc, _ => hacc
  | s :: t, acc, hacc, hss => by
    intro x hx
    refine foldl_best_snd sim g P t (if acc.1 < sim g s then (sim g s, some s) else acc) ?_
      (fun y hy => hss y (List.mem_cons_of_mem _ hy)) x hx
    intro y hy
    by_cases hlt : acc.1 < sim g s
    · rw [if_pos hlt] at hy
      obtain rfl : s = y := Option.some.inj hy
      exact hss s (List.mem_cons_self _ _)
    · rw [if_neg hlt] at hy
      exact hacc y hy

/-- Label of one NLI sentence entry: contradiction exactly when some
candidate sentence, unfiltered, classifies as a contradiction against the
reference sentence. -/
lemma nli_label_iff (classify_pair : String → String → NLIClassification)
    (summary_sentences : List String) (g : String) :
    ((match summary_sentences.find?
        (fun c => (classify_pair c g).label == NLILabel.contradiction) with
      | some c => (⟨g, "contradiction", some (classify_pair c g).probabilities⟩ :
          NLISentenceResult)
      | none => ⟨g, "neutral/entailment", none⟩) : NLISentenceResult).label = "contradiction" ↔
    ∃ c ∈ summary_sentences, (classify_pair c g).label = NLILabel.contradiction := by
  cases hf : summary_sentences.find?
      (fun c => (classify_pair c g).label == NLILabel.contradiction) with
  | some c =>
    simp only [hf]
    constructor
    · intro _
      refine ⟨c, List.mem_of_find?_eq_some hf, ?_⟩
      have := List.find?_some hf
      rwa [beq_iff_eq] at this
    · intro _
      trivial
  | none =>
    simp only [hf]
    constructor
    · intro hlab
      exact absurd hlab (by decide)
    · rintro ⟨c, hcm, hcl⟩
      have := List.find?_eq_none.mp hf c hcm
      rw [beq_iff_eq] at this
      exact absurd hcl this

/-- C3 (amended): the two evaluators do not share one filter.  The
contradiction detector strips reference sentences and keeps those of length
at least 10, while using every candidate sentence, unfiltered, as a premise;
the coverage analyzer strips both texts and keeps only sentences of length
strictly greater than 10 on both sides. -/
theorem sentence_filter_amended (classify_pair : String → String → NLIClassification)
    (sim : String → String → ℚ) (threshold : ℚ) (gt_sentences summary_sentences : List String) :
    (∀ e ∈ (NLIEvaluator.evaluate_summary classify_pair gt_sentences
        summary_sentences).sentence_results, 10 ≤ pyLen e.sentence) ∧
    (∀ s ∈ gt_sentences, 10 ≤ pyLen (pyStrip s) →
      pyStrip s ∈ (NLIEvaluator.evaluate_summary classify_pair gt_sentences
        summary_sentences).sentence_results.map (·.sentence)) ∧
    (∀ e ∈ (NLIEvaluator.evaluate_summary classify_pair gt_sentences
        summary_sentences).sentence_results,
      (e.label = "contradiction" ↔
        ∃ c ∈ summary_sentences, (classify_pair c e.sentence).label = NLILabel.contradiction)) ∧
    (∀ e ∈ (CoverageEvaluator.evaluate_summary sim threshold gt_sentences
        summary_sentences).sentence_results, 10 < pyLen e.ground_truth_sentence) ∧
    (∀ e ∈ (CoverageEvaluator.evaluate_summary sim threshold gt_sentences
        summary_sentences).sentence_results,
      ∀ c, e.best_match = some c → 10 < pyLen c) := by
  have hsent : ∀ g, ((match summary_sentences.find?
      (fun c => (classify_pair c g).label == NLILabel.contradiction) with
    | some c => (⟨g, "contradiction", some (classify_pair c g).probabilities⟩ : NLISentenceResult)
    | none => ⟨g, "neutral/entailment", none⟩) : NLISentenceResult).sentence = g := by
    intro g
    cases summary_sentences.find? (fun c => (classify_pair c g).label == NLILabel.contradiction) <;>
      rfl
  refine ⟨?_, ?_, ?_, ?_, ?_⟩
  · intro e he
    obtain ⟨g, hg, hge⟩ := List.mem_map.mp he
    have hkeep := (List.mem_filter.mp hg).2
    rw [Bool.not_eq_eq_eq_not, Bool.not_true, decide_eq_false_iff_not, not_lt] at hkeep
    rw [← hge]
    rw [hsent g]
    exact hkeep
  · intro s hs hlen
    have hmem : pyStrip s ∈ (gt_sentences.map pyStrip).filter
        (fun x => !decide (pyLen x < 10)) := by
      rw [List.mem_filter]
      refine ⟨List.mem_map_of_mem pyStrip hs, ?_⟩
      rw [Bool.not_eq_eq_eq_not, Bool.not_true, decide_eq_false_iff_not, not_lt]
      exact hlen
    exact List.mem_map.mpr ⟨_, List.mem_map_of_mem _ hmem, hsent (pyStrip s)⟩
  · intro e he
    obtain ⟨g, _, hge⟩ := List.mem_map.mp he
    subst hge
    rw [hsent g]
    exact nli_label_iff classify_pair summary_sentences g
  · intro e he
    by_cases hempty : ((coverageFilter gt_sentences).isEmpty ||
        (coverageFilter summary_sentences).isEmpty) = true
    · have : (CoverageEvaluator.evaluate_summary sim threshold gt_sentences
          summary_sentences).sentence_results = [] := by
        show (if (coverageFilter gt_sentences).isEmpty || (coverageFilter summary_sentences).isEmpty
          then (⟨[], [], none, none, 0, 0, none⟩ : CoverageResult)
          else _).sentence_results = []
        rw [if_pos hempty]
      rw [this] at he
      simp at he
    · have hne := hempty
      rw [Bool.not_eq_true] at hne
      have hres : (CoverageEvaluator.evaluate_summary sim threshold gt_sentences
          summary_sentences).sentence_results = (coverageFilter gt_sentences).map (fun gt_sent =>
            let best := (coverageFilter summary_sentences).foldl
              (fun (acc : ℚ × Option String) sum_sent =>
                if acc.1 < sim gt_sent sum_sent then (sim gt_sent sum_sent, some sum_sent) else acc)
              ((-1 : ℚ), (none : Option String))
            (⟨gt_sent, best.2, best.1, decide (threshold ≤ best.1)⟩ : CoverageSentenceResult)) := by
        show (if (coverageFilter gt_sentences).isEmpty || (coverageFilter summary_sentences).isEmpty
          then (⟨[], [], none, none, 0, 0, none⟩ : CoverageResult)
          else _).sentence_results = _
        rw [if_neg hempty]
      rw [hres] at he
      obtain ⟨g, hg, hge⟩ := List.mem_map.mp he
      have hkeep := (List.mem_filter.mp hg).2
      rw [decide_eq_true_eq] at hkeep
      rw [← hge]
      exact hkeep
  · intro e he c hc
    by_cases hempty : ((coverageFilter gt_sentences).isEmpty ||
        (coverageFilter summary_sentences).isEmpty) = true
    · have : (CoverageEvaluator.evaluate_summary sim threshold gt_sentences
          summary_sentences).sentence_results = [] := by
        show (if (coverageFilter gt_sentences).isEmpty || (coverageFilter summary_sentences).isEmpty
          then (⟨[], [], none, none, 0, 0, none⟩ : CoverageResult)
          else _).sentence_results = []
        rw [if_pos hempty]
      rw [this] at he
      simp at he
    · have hres : (CoverageEvaluator.evaluate_summary sim threshold gt_sentences
          summary_sentences).sentence_results = (coverageFilter gt_sentences).map (fun gt_sent =>
            let best := (coverageFilter summary_sentences).foldl
              (fun (acc : ℚ × Option String) sum_sent =>
                if acc.1 < sim gt_sent sum_sent then (sim gt_sent sum_sent, some sum_sent) else acc)
              ((-1 : ℚ), (none : Option String))
            (⟨gt_sent, best.2, best.1, decide (threshold ≤ best.1)⟩ : CoverageSentenceResult)) := by
        show (if (coverageFilter gt_sentences).isEmpty || (coverageFilter summary_sentences).isEmpty
          then (⟨[], [], none, none, 0, 0, none⟩ : CoverageResult)
          else _).sentence_results = _
        rw [if_neg hempty]
      rw [hres] at he
      obtain ⟨g, _, hge⟩ := List.mem_map.mp he
      have hbm : e.best_match = ((coverageFilter summary_sentences).foldl
          (fun (acc : ℚ × Option String) sum_sent =>
            if acc.1 < sim g sum_sent then (sim g sum_sent, some sum_sent) else acc)
          ((-1 : ℚ), (none : Option String))).2 := by
        rw [← hge]
      rw [hbm] at hc
      refine foldl_best_snd sim g (fun x => 10 < pyLen x) (coverageFilter summary_sentences)
        ((-1 : ℚ), (none : Option String)) ?_ ?_ c hc
      · intro x hx
        exact absurd hx (by simp)
      · intro x hx
        have := (List.mem_filter.mp hx).2
        rw [decide_eq_true_eq] at this
        exact this

/-- Witness for C3: a long reference sentence survives the contradiction
detector's filter and appears among its sentence results. -/
theorem sentence_filter_witness :
    ("This reference sentence is long." ∈ (["This reference sentence is long."] : List String) ∧
      10 ≤ pyLen (pyStrip "This reference sentence is long.")) ∧
    pyStrip "This reference sentence is long." ∈
      (NLIEvaluator.evaluate_summary neutralClassify ["This reference sentence is long."]
        ["abc"]).sentence_results.map (·.sentence) :=
  ⟨⟨by decide, by decide⟩,
    (sentence_filter_amended neutralClassify (fun _ _ => 1) (1/2)
      ["This reference sentence is long."] ["abc"]).2.1
      "This reference sentence is long." (by decide) (by decide)⟩

/-- Counterexample for C3 as frozen: the detector lets a 3-character
candidate sentence participate (flipping the contradiction rate from 0 to
1), and a stripped reference sentence of exactly 10 characters is kept by
the detector but discarded by the coverage analyzer, so the two evaluators
do not apply one shared under-10 filter to both texts. -/
theorem sentence_filter_not_shared :
    (NLIEvaluator.evaluate_summary contraOnAbc ["This reference sentence is long."]
      ["abc"]).contradiction_rate = 1 ∧
    (NLIEvaluator.evaluate_summary contraOnAbc ["This reference sentence is long."]
      []).contradiction_rate = 0 ∧
    (NLIEvaluator.evaluate_summary contraOnAbc ["0123456789"]
      ["This candidate sentence is long."]).total_sentences = 1 ∧
    (CoverageEvaluator.evaluate_summary (fun _ _ => 1) (1/2) ["0123456789"]
      ["This candidate sentence is long."]).total_gt_sentences = none := by
  refine ⟨?_, ?_, by decide, by decide⟩
  · have h : (NLIEvaluator.evaluate_summary contraOnAbc ["This reference sentence is long."]
        ["abc"]).contradiction_rate = ((1 : ℕ) : ℚ) / ((1 : ℕ) : ℚ) := rfl
    rw [h]
    norm_num
  · have h : (NLIEvaluator.evaluate_summary contraOnAbc ["This reference sentence is long."]
        []).contradiction_rate = ((0 : ℕ) : ℚ) / ((1 : ℕ) : ℚ) := rfl
    rw [h]
    norm_num

/- ### Percentile, rounding and bootstrap lemmas -/

/-- Defaulted indexing agrees with get in range. -/
lemma getD_eq_get_of_lt (s : List ℚ) {a : ℕ} (ha : a < s.length) :
    s.getD a 0 = s.get ⟨a, ha⟩ := by
  rw [List.getD_eq_get?, List.get?_eq_get ha]
  rfl

/-- Defaulted indexing into a sorted list is monotone on in-range indices. -/
lemma sorted_getD_mono {s : List ℚ} (hs : List.Sorted (· ≤ ·) s) {a b : ℕ} (hab : a ≤ b)
    (hb : b < s.length) : s.getD a 0 ≤ s.getD b 0 := by
  have ha : a < s.length := lt_of_le_of_lt hab hb
  rcases lt_or_eq_of_le hab with h | h
  · rw [getD_eq_get_of_lt s ha, getD_eq_get_of_lt s hb]
    exact List.Sorted.rel_get_of_lt hs (Fin.mk_lt_mk.mpr h)
  · subst h
    rfl

/-- Cast of the truncated floor of a nonnegative rational. -/
lemma toNat_floor_cast {h : ℚ} (h0 : 0 ≤ h) : ((⌊h⌋.toNat : ℚ)) = ((⌊h⌋ : ℤ) : ℚ) := by
  have := Int.toNat_of_nonneg (Int.floor_nonneg.mpr h0)
  exact_mod_cast congrArg (fun z : ℤ => (z : ℚ)) this

/-- Truncated floor bounded by a natural bound on the rational. -/
lemma toNat_floor_le {h : ℚ} {m : ℕ} (hm : h ≤ (m : ℚ)) : ⌊h⌋.toNat ≤ m := by
  have h1 : ⌊h⌋ ≤ (m : ℤ) := by
    have := Int.floor_mono hm
    rwa [Int.floor_natCast] at this
  exact Int.toNat_le.mpr h1

/-- Monotonicity of the percentile interpolation kernel on a sorted sample. -/
lemma npInterp_mono {s : List ℚ} (hs : List.Sorted (· ≤ ·) s) (hne : s.length ≠ 0)
    {h1 h2 : ℚ} (h0 : 0 ≤ h1) (h12 : h1 ≤ h2) (hub : h2 ≤ (s.length : ℚ) - 1) :
    npInterp s h1 ≤ npInterp s h2 := by
  have hnpos : 1 ≤ s.length := Nat.one_le_iff_ne_zero.mpr hne
  have hcast : ((s.length : ℚ) - 1) = ((s.length - 1 : ℕ) : ℚ) := by
    rw [Nat.cast_sub hnpos]
    norm_num
  have h0' : 0 ≤ h2 := le_trans h0 h12
  have hub1 : h1 ≤ ((s.length - 1 : ℕ) : ℚ) := by rw [← hcast]; exact le_trans h12 hub
  have hub2 : h2 ≤ ((s.length - 1 : ℕ) : ℚ) := by rw [← hcast]; exact hub
  have hi1le : ⌊h1⌋.toNat ≤ s.length - 1 := toNat_floor_le hub1
  have hi2le : ⌊h2⌋.toNat ≤ s.length - 1 := toNat_floor_le hub2
  have hi1lt : ⌊h1⌋.toNat < s.length := lt_of_le_of_lt hi1le (Nat.sub_lt hnpos one_pos)
  have hi2lt : ⌊h2⌋.toNat < s.length := lt_of_le_of_lt hi2le (Nat.sub_lt hnpos one_pos)
  have hj1le : min (⌊h1⌋.toNat + 1) (s.length - 1) ≤ s.length - 1 := min_le_right _ _
  have hj2le : min (⌊h2⌋.toNat + 1) (s.length - 1) ≤ s.length - 1 := min_le_right _ _
  have hj1lt : min (⌊h1⌋.toNat + 1) (s.length - 1) < s.length :=
    lt_of_le_of_lt hj1le (Nat.sub_lt hnpos one_pos)
  have hj2lt : min (⌊h2⌋.toNat + 1) (s.length - 1) < s.length :=
    lt_of_le_of_lt hj2le (Nat.sub_lt hnpos one_pos)
  have hij1 : ⌊h1⌋.toNat ≤ min (⌊h1⌋.toNat + 1) (s.length - 1) :=
    le_min (Nat.le_succ _) hi1le
  have hij2 : ⌊h2⌋.toNat ≤ min (⌊h2⌋.toNat + 1) (s.length - 1) :=
    le_min (Nat.le_succ _) hi2le
  have hf1lo : ((⌊h1⌋.toNat : ℚ)) ≤ h1 := by
    rw [toNat_floor_cast h0]
    exact Int.floor_le h1
  have hf1hi : h1 < ((⌊h1⌋.toNat : ℚ)) + 1 := by
    rw [toNat_floor_cast h0]
    exact Int.lt_floor_add_one h1
  have hf2lo : ((⌊h2⌋.toNat : ℚ)) ≤ h2 := by
    rw [toNat_floor_cast h0']
    exact Int.floor_le h2
  have hd1 : s.getD ⌊h1⌋.toNat 0 ≤ s.getD (min (⌊h1⌋.toNat + 1) (s.length - 1)) 0 :=
    sorted_getD_mono hs hij1 hj1lt
  have hd2 : s.getD ⌊h2⌋.toNat 0 ≤ s.getD (min (⌊h2⌋.toNat + 1) (s.length - 1)) 0 :=
    sorted_getD_mono hs hij2 hj2lt
  by_cases hii : ⌊h1⌋.toNat = ⌊h2⌋.toNat
  · rw [npInterp, npInterp, ← hii]
    have hmul : (h1 - (⌊h1⌋.toNat : ℚ)) *
        (s.getD (min (⌊h1⌋.toNat + 1) (s.length - 1)) 0 - s.getD ⌊h1⌋.toNat 0) ≤
        (h2 - (⌊h1⌋.toNat : ℚ)) *
        (s.getD (min (⌊h1⌋.toNat + 1) (s.length - 1)) 0 - s.getD ⌊h1⌋.toNat 0) := by
      apply mul_le_mul_of_nonneg_right (by linarith) (by linarith [hd1])
    linarith
  · have hfloorle : ⌊h1⌋.toNat ≤ ⌊h2⌋.toNat := Int.toNat_le_toNat (Int.floor_mono h12)
    have hlt : ⌊h1⌋.toNat < ⌊h2⌋.toNat := lt_of_le_of_ne hfloorle hii
    have hstep1 : npInterp s h1 ≤ s.getD (min (⌊h1⌋.toNat + 1) (s.length - 1)) 0 := by
      rw [npInterp]
      nlinarith [hd1, hf1lo, hf1hi]
    have hstep2 : s.getD (min (⌊h1⌋.toNat + 1) (s.length - 1)) 0 ≤ s.getD ⌊h2⌋.toNat 0 := by
      apply sorted_getD_mono hs _ hi2lt
      exact le_trans (min_le_left _ _) hlt
    have hstep3 : s.getD ⌊h2⌋.toNat 0 ≤ npInterp s h2 := by
      rw [npInterp]
      nlinarith [hd2, hf2lo]
    linarith

/-- Interpolation on a constant sample returns the constant. -/
lemma npInterp_const {v : ℚ} {s : List ℚ} (hall : ∀ x ∈ s, x = v) (hne : s.length ≠ 0)
    {h : ℚ} (h0 : 0 ≤ h) (hub : h ≤ (s.length : ℚ) - 1) : npInterp s h = v := by
  have hnpos : 1 ≤ s.length := Nat.one_le_iff_ne_zero.mpr hne
  have hcast : ((s.length : ℚ) - 1) = ((s.length - 1 : ℕ) : ℚ) := by
    rw [Nat.cast_sub hnpos]
    norm_num
  have hub' : h ≤ ((s.length - 1 : ℕ) : ℚ) := by rw [← hcast]; exact hub
  have hilt : ⌊h⌋.toNat < s.length :=
    lt_of_le_of_lt (toNat_floor_le hub') (Nat.sub_lt hnpos one_pos)
  have hjlt : min (⌊h⌋.toNat + 1) (s.length - 1) < s.length :=
    lt_of_le_of_lt (min_le_right _ _) (Nat.sub_lt hnpos one_pos)
  have hgi : s.getD ⌊h⌋.toNat 0 = v := by
    rw [getD_eq_get_of_lt s hilt]
    exact hall _ (List.get_mem s _ hilt)
  have hgj : s.getD (min (⌊h⌋.toNat + 1) (s.length - 1)) 0 = v := by
    rw [getD_eq_get_of_lt s hjlt]
    exact hall _ (List.get_mem s _ hjlt)
  rw [npInterp, hgi, hgj]
  ring

/-- Percentiles are monotone in the requested quantile over [0, 100]. -/
lemma npPercentile_mono (l : List ℚ) {q1 q2 : ℚ} (h0 : 0 ≤ q1) (h12 : q1 ≤ q2)
    (h100 : q2 ≤ 100) : npPercentile q1 l ≤ npPercentile q2 l := by
  by_cases hl : l.length = 0
  · simp [npPercentile, hl]
  · rw [npPercentile, npPercentile, if_neg hl, if_neg hl]
    have hslen : (List.insertionSort (· ≤ ·) l).length = l.length :=
      (List.perm_insertionSort (· ≤ ·) l).length_eq
    have hnpos : (1 : ℚ) ≤ (l.length : ℚ) := by
      have : 1 ≤ l.length := Nat.one_le_iff_ne_zero.mpr hl
      exact_mod_cast this
    have hnn : (0 : ℚ) ≤ (l.length : ℚ) - 1 := by linarith
    apply npInterp_mono (List.sorted_insertionSort (fun a b => a ≤ b) l)
    · rw [hslen]
      exact hl
    · exact mul_nonneg (div_nonneg h0 (by norm_num)) hnn
    · exact mul_le_mul_of_nonneg_right ((div_le_div_right (by norm_num)).mpr h12) hnn
    · rw [hslen]
      have hq : q2 / 100 ≤ 1 := (div_le_one (by norm_num)).mpr h100
      calc q2 / 100 * ((l.length : ℚ) - 1) ≤ 1 * ((l.length : ℚ) - 1) :=
            mul_le_mul_of_nonneg_right hq hnn
        _ = (l.length : ℚ) - 1 := one_mul _

/-- Percentiles of a constant nonempty sample return the constant. -/
lemma npPercentile_const {v q : ℚ} {l : List ℚ} (hne : l ≠ []) (hall : ∀ x ∈ l, x = v)
    (hq0 : 0 ≤ q) (hq1 : q ≤ 100) : npPercentile q l = v := by
  have hl : l.length ≠ 0 := fun h => hne (List.length_eq_zero.mp h)
  rw [npPercentile, if_neg hl]
  have hslen : (List.insertionSort (· ≤ ·) l).length = l.length :=
    (List.perm_insertionSort (· ≤ ·) l).length_eq
  have hnpos : (1 : ℚ) ≤ (l.length : ℚ) := by
    have : 1 ≤ l.length := Nat.one_le_iff_ne_zero.mpr hl
    exact_mod_cast this
  have hnn : (0 : ℚ) ≤ (l.length : ℚ) - 1 := by linarith
  apply npInterp_const
  · intro x hx
    exact hall x (((List.perm_insertionSort (· ≤ ·) l).mem_iff).mp hx)
  · rw [hslen]
    exact hl
  · exact mul_nonneg (div_nonneg hq0 (by norm_num)) hnn
  · rw [hslen]
    have hq : q / 100 ≤ 1 := (div_le_one (by norm_num)).mpr hq1
    calc q / 100 * ((l.length : ℚ) - 1) ≤ 1 * ((l.length : ℚ) - 1) :=
          mul_le_mul_of_nonneg_right hq hnn
      _ = (l.length : ℚ) - 1 := one_mul _

/-- Mean of a constant nonempty list. -/
lemma listMean_const {v : ℚ} {l : List ℚ} (hne : l ≠ []) (hall : ∀ x ∈ l, x = v) :
    listMean l = v := by
  have hlen : ((l.length : ℕ) : ℚ) ≠ 0 :=
    Nat.cast_ne_zero.mpr (fun h => hne (List.length_eq_zero.mp h))
  rw [listMean, List.sum_eq_card_nsmul l v hall, nsmul_eq_mul]
  exact mul_div_cancel_left₀ v hlen

/-- Length of the modelled index draw. -/
lemma npRandChoice_length (b n : ℕ) : (npRandChoice b n).length = n := by
  rw [npRandChoice, List.length_map, List.length_range]

/-- Validity of the modelled index draw: every index is in range. -/
lemma npRandChoice_lt (b n : ℕ) (hn : 0 < n) : ∀ i ∈ npRandChoice b n, i < n := by
  intro i hi
  obtain ⟨t, _, ht⟩ := List.mem_map.mp hi
  rw [← ht]
  exact Nat.mod_lt _ hn

/-- Lower bound of the round-half-even integer. -/
lemma roundHalfEvenInt_lb (x : ℚ) : ⌊x⌋ ≤ roundHalfEvenInt x := by
  rw [roundHalfEvenInt]
  split_ifs <;> omega

/-- Upper bound of the round-half-even integer. -/
lemma roundHalfEvenInt_ub (x : ℚ) : roundHalfEvenInt x ≤ ⌊x⌋ + 1 := by
  rw [roundHalfEvenInt]
  split_ifs <;> omega

/-- Round-half-even is monotone. -/
lemma roundHalfEvenInt_mono {x y : ℚ} (hxy : x ≤ y) :
    roundHalfEvenInt x ≤ roundHalfEvenInt y := by
  have hf : ⌊x⌋ ≤ ⌊y⌋ := Int.floor_mono hxy
  rcases lt_or_eq_of_le hf with hlt | heq
  · calc roundHalfEvenInt x ≤ ⌊x⌋ + 1 := roundHalfEvenInt_ub x
      _ ≤ ⌊y⌋ := by omega
      _ ≤ roundHalfEvenInt y := roundHalfEvenInt_lb y
  · have hfx : ((⌊x⌋ : ℚ)) = ((⌊y⌋ : ℚ)) := by exact_mod_cast heq
    rw [roundHalfEvenInt, roundHalfEvenInt, ← heq]
    split_ifs <;> first | omega | linarith

/-- Python round to 4 places is monotone. -/
lemma pyRound4_mono {x y : ℚ} (hxy : x ≤ y) : pyRound4 x ≤ pyRound4 y := by
  rw [pyRound4, pyRound4]
  have h1 : roundHalfEvenInt (x * 10000) ≤ roundHalfEvenInt (y * 10000) :=
    roundHalfEvenInt_mono (mul_le_mul_of_nonneg_right hxy (by norm_num))
  have h2 : ((roundHalfEvenInt (x * 10000) : ℤ) : ℚ) ≤ ((roundHalfEvenInt (y * 10000) : ℤ) : ℚ) := by
    exact_mod_cast h1
  exact (div_le_div_right (by norm_num)).mpr h2

/-- Membership in the two-element constant list. -/
lemma mem_pair_const {v x : ℚ} (hx : x ∈ ([v, v] : List ℚ)) : x = v := by
  rcases List.mem_cons.mp hx with h | h
  · exact h
  · rcases List.mem_cons.mp h with h2 | h2
    · exact h2
    · simp at h2

/-- Every bootstrap resample mean of a constant pair is the constant. -/
lemma bootMeans_const_pair (v : ℚ) : ∀ x ∈ bootMeans npRandChoice [v, v], x = v := by
  intro x hx
  obtain ⟨b, _, hb⟩ := List.mem_map.mp hx
  rw [← hb]
  apply listMean_const
  · have hlen : (select (npRandChoice b ([v, v] : List ℚ).length) [v, v]).length = 2 := by
      rw [select, List.length_map, npRandChoice_length]
      rfl
    intro hnil
    rw [hnil] at hlen
    simp at hlen
  · intro y hy
    obtain ⟨i, hi, hiy⟩ := List.mem_map.mp hy
    have hilt : i < ([v, v] : List ℚ).length := npRandChoice_lt b _ (by norm_num) i hi
    rw [← hiy, getD_eq_get_of_lt _ hilt]
    exact mem_pair_const (List.get_mem ([v, v] : List ℚ) i hilt)

/-- Bootstrap means of a pair form a nonempty list. -/
lemma bootMeans_pair_ne (v : ℚ) : bootMeans npRandChoice [v, v] ≠ [] := by
  have hlen : (bootMeans npRandChoice [v, v]).length = 1000 := by
    rw [bootMeans, List.length_map, List.length_range]
  intro h
  rw [h] at hlen
  simp at hlen

/-- Bootstrap CI of a constant pair: the mean is the constant and both CI
bounds are the 4-decimal rounding of the constant. -/
lemma bootstrap_ci_const_pair (v : ℚ) :
    (bootstrap_composite_ci [v, v]).mean = v ∧
    (bootstrap_composite_ci [v, v]).ci_lower = some (pyRound4 v) ∧
    (bootstrap_composite_ci [v, v]).ci_upper = some (pyRound4 v) := by
  have hmean : listMean [v, v] = v := listMean_const (by simp) (fun x hx => mem_pair_const hx)
  have hif : ¬ (([v, v] : List ℚ).length < 2) := by norm_num
  have hp1 : npPercentile (5/2) (bootMeans npRandChoice [v, v]) = v :=
    npPercentile_const (bootMeans_pair_ne v) (bootMeans_const_pair v) (by norm_num) (by norm_num)
  have hp2 : npPercentile (195/2) (bootMeans npRandChoice [v, v]) = v :=
    npPercentile_const (bootMeans_pair_ne v) (bootMeans_const_pair v) (by norm_num) (by norm_num)
  rw [bootstrap_composite_ci, bootstrap_composite_ci_with, if_neg hif]
  exact ⟨hmean, by rw [hp1], by rw [hp2]⟩

/-- Concrete rounding fact: 0.00006 rounds up to 0.0001 at 4 decimals. -/
lemma pyRound4_of_small : pyRound4 (3/50000) = 1/10000 := by
  have h1 : (3/50000 : ℚ) * 10000 = 3/5 := by norm_num
  have hf : ⌊(3/5 : ℚ)⌋ = 0 := by
    rw [Int.floor_eq_zero_iff]
    constructor <;> norm_num
  have h2 : roundHalfEvenInt (3/5) = 1 := by
    rw [roundHalfEvenInt, hf]
    norm_num
  rw [pyRound4, h1, h2]
  norm_num

/- ### C6 -/

/-- C6 (amended): bootstrap_composite_ci is a deterministic function of the
input score list (the seed is fixed); for n < 2 the CI and std-error fields
are null; for n >= 2 the returned bounds are the 4-decimal roundings of the
2.5 and 97.5 percentiles of the bootstrap means, which always satisfy
ci_lower <= ci_upper; on a constant pair both bounds equal the rounding of
the mean, which can exceed the mean itself, so the claimed
ci_lower <= mean <= ci_upper fails in general by up to the rounding margin. -/
theorem bootstrap_ci_amended :
    (∀ s t : List ℚ, s = t → bootstrap_composite_ci s = bootstrap_composite_ci t) ∧
    (∀ s : List ℚ, s.length < 2 →
      (bootstrap_composite_ci s).ci_lower = none ∧
      (bootstrap_composite_ci s).ci_upper = none ∧
      (bootstrap_composite_ci s).std_error = none) ∧
    (∀ s : List ℚ, 2 ≤ s.length →
      (bootstrap_composite_ci s).ci_lower =
        some (pyRound4 (npPercentile (5/2) (bootMeans npRandChoice s))) ∧
      (bootstrap_composite_ci s).ci_upper =
        some (pyRound4 (npPercentile (195/2) (bootMeans npRandChoice s))) ∧
      npPercentile (5/2) (bootMeans npRandChoice s) ≤
        npPercentile (195/2) (bootMeans npRandChoice s) ∧
      pyRound4 (npPercentile (5/2) (bootMeans npRandChoice s)) ≤
        pyRound4 (npPercentile (195/2) (bootMeans npRandChoice s))) ∧
    (∀ v : ℚ, (bootstrap_composite_ci [v, v]).mean = v ∧
      (bootstrap_composite_ci [v, v]).ci_lower = some (pyRound4 v) ∧
      (bootstrap_composite_ci [v, v]).ci_upper = some (pyRound4 v)) := by
  refine ⟨?_, ?_, ?_, bootstrap_ci_const_pair⟩
  · intro s t h
    rw [h]
  · intro s h
    rw [bootstrap_composite_ci, bootstrap_composite_ci_with, if_pos h]
    exact ⟨rfl, rfl, rfl⟩
  · intro s h
    have hmono : npPercentile (5/2) (bootMeans npRandChoice s) ≤
        npPercentile (195/2) (bootMeans npRandChoice s) :=
      npPercentile_mono _ (by norm_num) (by norm_num) (by norm_num)
    rw [bootstrap_composite_ci, bootstrap_composite_ci_with, if_neg (not_lt.mpr h)]
    exact ⟨rfl, rfl, hmono, pyRound4_mono hmono⟩

/-- Witness for C6: a singleton list has null CI fields and a two-element
list gets rounded percentile bounds in order. -/
theorem bootstrap_ci_witness :
    (([(0 : ℚ)] : List ℚ).length < 2 ∧
      (bootstrap_composite_ci [(0 : ℚ)]).ci_lower = none ∧
      (bootstrap_composite_ci [(0 : ℚ)]).ci_upper = none ∧
      (bootstrap_composite_ci [(0 : ℚ)]).std_error = none) ∧
    (2 ≤ ([(0 : ℚ), 1] : List ℚ).length ∧
      ((bootstrap_composite_ci [(0 : ℚ), 1]).ci_lower =
        some (pyRound4 (npPercentile (5/2) (bootMeans npRandChoice [(0 : ℚ), 1]))) ∧
      (bootstrap_composite_ci [(0 : ℚ), 1]).ci_upper =
        some (pyRound4 (npPercentile (195/2) (bootMeans npRandChoice [(0 : ℚ), 1]))) ∧
      npPercentile (5/2) (bootMeans npRandChoice [(0 : ℚ), 1]) ≤
        npPercentile (195/2) (bootMeans npRandChoice [(0 : ℚ), 1]) ∧
      pyRound4 (npPercentile (5/2) (bootMeans npRandChoice [(0 : ℚ), 1])) ≤
        pyRound4 (npPercentile (195/2) (bootMeans npRandChoice [(0 : ℚ), 1])))) :=
  ⟨⟨by norm_num, bootstrap_ci_amended.2.1 [(0 : ℚ)] (by norm_num)⟩,
    ⟨by norm_num, bootstrap_ci_amended.2.2.1 [(0 : ℚ), 1] (by norm_num)⟩⟩

/-- Counterexample for C6 as frozen: on the constant pair [0.00006, 0.00006]
the returned ci_lower is 0.0001, strictly above the returned mean 0.00006,
because the CI bounds are rounded to 4 decimal places; so
ci_lower <= mean <= ci_upper does not hold of the returned values. -/
theorem bootstrap_ci_rounding_violates_bracketing :
    (bootstrap_composite_ci [3/50000, 3/50000]).mean = 3/50000 ∧
    (bootstrap_composite_ci [3/50000, 3/50000]).ci_lower = some (1/10000) ∧
    ¬ ((1 : ℚ)/10000 ≤ 3/50000) := by
  obtain ⟨hm, hlo, _⟩ := bootstrap_ci_const_pair (3/50000)
  refine ⟨hm, ?_, by norm_num⟩
  rw [hlo, pyRound4_of_small]

/- ### C7 -/

/-- Sum of pointwise differences of equal-length lists. -/
lemma sum_zipWith_sub : ∀ {l1 l2 : List ℚ}, l1.length = l2.length →
    (List.zipWith (fun a b => a - b) l1 l2).sum = l1.sum - l2.sum
  | [], [], _ => by simp
  | [], _ :: _, h => by simp at h
  | _ :: _, [], h => by simp at h
  | a :: t1, b :: t2, h => by
    have ht : t1.length = t2.length := by
      simpa using h
    simp only [List.zipWith_cons_cons, List.sum_cons, sum_zipWith_sub ht]
    ring

/-- Mean of pointwise differences of equal-length lists. -/
lemma listMean_zipWith_sub {l1 l2 : List ℚ} (h : l1.length = l2.length) :
    listMean (List.zipWith (fun a b => a - b) l1 l2) = listMean l1 - listMean l2 := by
  rw [listMean, listMean, listMean, sum_zipWith_sub h, List.length_zipWith, h, min_self,
    sub_div]

/-- Defaulted indexing into a pointwise difference. -/
lemma getD_zipWith_sub : ∀ {l1 l2 : List ℚ}, l1.length = l2.length → ∀ i : ℕ,
    (List.zipWith (fun a b => a - b) l1 l2).getD i 0 = l1.getD i 0 - l2.getD i 0
  | [], [], _, i => by simp
  | [], _ :: _, h, _ => by simp at h
  | _ :: _, [], h, _ => by simp at h
  | a :: t1, b :: t2, h, i => by
    have ht : t1.length = t2.length := by simpa using h
    cases i with
    | zero => rfl
    | succ i =>
      simp only [List.zipWith_cons_cons, List.getD_cons_succ]
      exact getD_zipWith_sub ht i

/-- Fancy indexing commutes with pointwise difference on equal-length arrays. -/
lemma select_zipWith_sub {l1 l2 : List ℚ} (h : l1.length = l2.length) (idx : List ℕ) :
    select idx (List.zipWith (fun a b => a - b) l1 l2) =
      List.zipWith (fun a b => a - b) (select idx l1) (select idx l2) := by
  induction idx with
  | nil => rfl
  | cons i t ih =>
    simp only [select, List.map_cons] at ih ⊢
    rw [List.zipWith_cons_cons, getD_zipWith_sub h i, ih]

/-- One bootstrap iteration of the paired difference: resampling both score
vectors with one shared index vector equals resampling their per-case
differences once. -/
lemma bootDiff_paired {l1 l2 : List ℚ} (h : l1.length = l2.length) (idx : List ℕ) :
    listMean (select idx l1) - listMean (select idx l2) =
      listMean (select idx (List.zipWith (fun a b => a - b) l1 l2)) := by
  rw [select_zipWith_sub h idx, listMean_zipWith_sub]
  rw [select, select, List.length_map, List.length_map]

set_option maxRecDepth 4000 in
/-- C7: for every unordered pair of models in sorted order whose aligned
score lists share at least 2 entries, the pairwise test reports the mean of
the per-case differences over the aligned prefix, its bootstrap resamples
reuse one shared index draw per iteration (so each bootstrap difference is
the resampled mean of the per-case differences), the interval bounds are
the rounded 2.5 and 97.5 percentiles of those 1000 differences, and the
pair is significant exactly when the unrounded interval excludes zero. -/
theorem pairwise_significance_paired (idxs : ℕ → ℕ → List ℕ)
    (model_scores : List (String × List ℚ)) (m1 m2 : String)
    (hmem : (m1, m2) ∈ combos (pySortStrings (model_scores.map Prod.fst)))
    (hn : 2 ≤ min (lookupD model_scores m1 []).length (lookupD model_scores m2 []).length) :
    ∃ r ∈ pairwise_significance_test_with idxs model_scores,
      r.model_a = m1 ∧ r.model_b = m2 ∧
      r.mean_diff = pyRound4 (listMean (List.zipWith (fun a b => a - b)
        ((lookupD model_scores m1 []).take
          (min (lookupD model_scores m1 []).length (lookupD model_scores m2 []).length))
        ((lookupD model_scores m2 []).take
          (min (lookupD model_scores m1 []).length (lookupD model_scores m2 []).length)))) ∧
      bootDiffs idxs
        ((lookupD model_scores m1 []).take
          (min (lookupD model_scores m1 []).length (lookupD model_scores m2 []).length))
        ((lookupD model_scores m2 []).take
          (min (lookupD model_scores m1 []).length (lookupD model_scores m2 []).length))
        (min (lookupD model_scores m1 []).length (lookupD model_scores m2 []).length) =
        (List.range 1000).map (fun b => listMean (select
          (idxs b (min (lookupD model_scores m1 []).length (lookupD model_scores m2 []).length))
          (List.zipWith (fun a b => a - b)
            ((lookupD model_scores m1 []).take
              (min (lookupD model_scores m1 []).length (lookupD model_scores m2 []).length))
            ((lookupD model_scores m2 []).take
              (min (lookupD model_scores m1 []).length
                (lookupD model_scores m2 []).length))))) ∧
      r.ci_95_lower = pyRound4 (npPercentile (5/2) (bootDiffs idxs
        ((lookupD model_scores m1 []).take
          (min (lookupD model_scores m1 []).length (lookupD model_scores m2 []).length))
        ((lookupD model_scores m2 []).take
          (min (lookupD model_scores m1 []).length (lookupD model_scores m2 []).length))
        (min (lookupD model_scores m1 []).length (lookupD model_scores m2 []).length))) ∧
      r.ci_95_upper = pyRound4 (npPercentile (195/2) (bootDiffs idxs
        ((lookupD model_scores m1 []).take
          (min (lookupD model_scores m1 []).length (lookupD model_scores m2 []).length))
        ((lookupD model_scores m2 []).take
          (min (lookupD model_scores m1 []).length (lookupD model_scores m2 []).length))
        (min (lookupD model_scores m1 []).length (lookupD model_scores m2 []).length))) ∧
      (r.significant = true ↔
        ¬ (npPercentile (5/2) (bootDiffs idxs
            ((lookupD model_scores m1 []).take
              (min (lookupD model_scores m1 []).length (lookupD model_scores m2 []).length))
            ((lookupD model_scores m2 []).take
              (min (lookupD model_scores m1 []).length (lookupD model_scores m2 []).length))
            (min (lookupD model_scores m1 []).length (lookupD model_scores m2 []).length)) ≤ 0 ∧
          0 ≤ npPercentile (195/2) (bootDiffs idxs
            ((lookupD model_scores m1 []).take
              (min (lookupD model_scores m1 []).length (lookupD model_scores m2 []).length))
            ((lookupD model_scores m2 []).take
              (min (lookupD model_scores m1 []).length (lookupD model_scores m2 []).length))
            (min (lookupD model_scores m1 []).length
              (lookupD model_scores m2 []).length)))) := by
  set l1 := lookupD model_scores m1 [] with hl1
  set l2 := lookupD model_scores m2 [] with hl2
  set n := min l1.length l2.length with hndef
  have hne : ¬ (n < 2) := not_lt.mpr hn
  have hlen1 : (l1.take n).length = n := by
    rw [List.length_take]
    exact min_eq_left (min_le_left _ _)
  have hlen2 : (l2.take n).length = n := by
    rw [List.length_take]
    exact min_eq_left (min_le_right _ _)
  have hlens : (l1.take n).length = (l2.take n).length := by rw [hlen1, hlen2]
  have hpair : sigTestPair idxs m1 m2 l1 l2 = some
      ⟨modelShortName m1 ++ " vs " ++ modelShortName m2, m1, m2,
        pyRound4 (listMean (l1.take n) - listMean (l2.take n)),
        pyRound4 (npPercentile (5/2) (bootDiffs idxs (l1.take n) (l2.take n) n)),
        pyRound4 (npPercentile (195/2) (bootDiffs idxs (l1.take n) (l2.take n) n)),
        decide (0 < npPercentile (5/2) (bootDiffs idxs (l1.take n) (l2.take n) n)) ||
          decide (npPercentile (195/2) (bootDiffs idxs (l1.take n) (l2.take n) n) < 0),
        if 0 < listMean (l1.take n) - listMean (l2.take n) then modelShortName m1
        else modelShortName m2⟩ := by
    rw [sigTestPair]
    rw [if_neg hne]
  refine ⟨_, List.mem_filterMap.mpr ⟨(m1, m2), hmem, hpair⟩, rfl, rfl, ?_, ?_, rfl, rfl, ?_⟩
  · show pyRound4 (listMean (l1.take n) - listMean (l2.take n)) = _
    rw [← listMean_zipWith_sub hlens]
  · rw [bootDiffs]
    apply List.map_congr_left
    intro b _
    exact bootDiff_paired hlens (idxs b n)
  · show (decide (0 < npPercentile (5/2) (bootDiffs idxs (l1.take n) (l2.take n) n)) ||
      decide (npPercentile (195/2) (bootDiffs idxs (l1.take n) (l2.take n) n) < 0)) = true ↔ _
    rw [Bool.or_eq_true, decide_eq_true_eq, decide_eq_true_eq, not_and_or, not_le, not_le]

/-- Witness for C7: two models with three aligned constant scores each are
compared by the pairwise test. -/
theorem pairwise_significance_witness :
    (("a", "b") ∈ combos (pySortStrings
        (([("a", [(9 : ℚ)/10, 9/10, 9/10]), ("b", [(1 : ℚ)/10, 1/10, 1/10])] :
          List (String × List ℚ)).map Prod.fst)) ∧
      2 ≤ min
        (lookupD [("a", [(9 : ℚ)/10, 9/10, 9/10]), ("b", [(1 : ℚ)/10, 1/10, 1/10])] "a"
          []).length
        (lookupD [("a", [(9 : ℚ)/10, 9/10, 9/10]), ("b", [(1 : ℚ)/10, 1/10, 1/10])] "b"
          []).length) ∧
    (∃ r ∈ pairwise_significance_test_with (fun _ n => List.range n)
        [("a", [(9 : ℚ)/10, 9/10, 9/10]), ("b", [(1 : ℚ)/10, 1/10, 1/10])],
      r.model_a = "a" ∧ r.model_b = "b") :=
  ⟨⟨by decide, by decide⟩, by
    obtain ⟨r, hr, h1, h2, _⟩ := pairwise_significance_paired (fun _ n => List.range n)
      [("a", [(9 : ℚ)/10, 9/10, 9/10]), ("b", [(1 : ℚ)/10, 1/10, 1/10])] "a" "b"
      (by decide) (by decide)
    exact ⟨r, hr, h1, h2⟩⟩
